import Mathlib

/-!
Shallow embedding of the Wine selector / LDT manager from
src/memory/selector.c, together with proofs settling the frozen claims
about its specification.

Modelling conventions:
* machine integers are `Nat` with explicit reductions where the C code
  wraps: `% 65536` for `WORD`, `% 4294967296` for `DWORD` / pointers;
  a function taking a `WORD` parameter reduces it on entry, mirroring
  the implicit conversion at the C call boundary;
* the process-wide `wine_ldt_copy` table (parallel arrays base / limit /
  flags indexed by slot number) is a structure of total functions
  `Nat → Nat`, passed and returned explicitly;
* the LDT entry helpers (`wine_ldt_set_base`, `wine_ldt_set_limit`,
  `wine_ldt_get_limit`, `wine_ldt_set_entry`, ...) live in the Wine
  library headers, outside src/.  They are modelled from the spec's
  data model (slots hold base, limit = last valid byte offset, flags)
  together with the descriptor format fixed by the code: a 20-bit limit
  field with page granularity for limits of 0x100000 bytes or more, a
  5-bit type field;
* hardware side effects (the i386 %fs/%gs handling in FreeSelector16,
  saved-context register writes) belong to the spec's hardware-context
  collaborator and are outside the table model.
-/

namespace Selector

/-- Number of slots in the descriptor table (LDT_SIZE in selector.c). -/
def LDT_SIZE : Nat := 8192

/-- Modelled from the spec: the reserved-slot prefix boundary is
implementation-configured but must be positive (spec section 6); the value 512
is the one the Wine headers use for FIRST_LDT_ENTRY_TO_ALLOC. -/
def FIRST_LDT_ENTRY_TO_ALLOC : Nat := 512

/-- Selector handle shift: slot index = selector >> 3. -/
def __AHSHIFT : Nat := 3

/-- Data segment type bits (read/write data, accessed). -/
def WINE_LDT_FLAGS_DATA : Nat := 0x13

/-- Code segment type bits (readable code, accessed). -/
def WINE_LDT_FLAGS_CODE : Nat := 0x1b

/-- Flag bit marking a 32-bit segment. -/
def WINE_LDT_FLAGS_32BIT : Nat := 0x40

/-- Flag bit marking a slot as allocated. -/
def WINE_LDT_FLAGS_ALLOCATED : Nat := 0x80

/-- An LDT descriptor entry: 32-bit base, 20-bit raw limit field with a
granularity bit, 5-bit type field, and the Default_Big (32-bit) bit. -/
structure LDT_ENTRY where
  base : Nat
  limitRaw : Nat
  granularity : Bool
  typ : Nat
  big : Bool

/-- The all-zero descriptor entry. -/
def nullEntry : LDT_ENTRY := ⟨0, 0, false, 0, false⟩

/-- Modelled from the spec: wine_ldt_set_base stores a 32-bit base address. -/
def wine_ldt_set_base (e : LDT_ENTRY) (b : Nat) : LDT_ENTRY :=
  { e with base := b % 4294967296 }

/-- Modelled from the spec: wine_ldt_get_base reads the stored base. -/
def wine_ldt_get_base (e : LDT_ENTRY) : Nat := e.base

/-- Modelled from the spec: wine_ldt_set_limit stores a limit; limits of
0x100000 or more are stored page-granular (shifted right by 12). -/
def wine_ldt_set_limit (e : LDT_ENTRY) (l : Nat) : LDT_ENTRY :=
  if 0x100000 ≤ l then { e with granularity := true, limitRaw := (l >>> 12) % 0x100000 }
  else { e with granularity := false, limitRaw := l % 0x100000 }

/-- Modelled from the spec: wine_ldt_get_limit reads the effective byte limit,
expanding page granularity. -/
def wine_ldt_get_limit (e : LDT_ENTRY) : Nat :=
  if e.granularity then (e.limitRaw <<< 12) ||| 0xFFF else e.limitRaw

/-- Modelled from the spec: wine_ldt_set_flags sets the 5-bit type field and
the 32-bit flag from a flags byte. -/
def wine_ldt_set_flags (e : LDT_ENTRY) (f : Nat) : LDT_ENTRY :=
  { e with typ := f % 0x20, big := (f &&& WINE_LDT_FLAGS_32BIT) != 0 }

/-- Modelled from the spec: wine_ldt_get_flags reads back the flags byte. -/
def wine_ldt_get_flags (e : LDT_ENTRY) : Nat :=
  e.typ ||| (if e.big then WINE_LDT_FLAGS_32BIT else 0)

/-- The process-wide descriptor-table cache wine_ldt_copy: three parallel
arrays indexed by slot number (spec section 3). -/
structure WineLdtCopy where
  baseArr : Nat → Nat
  limitArr : Nat → Nat
  flagsArr : Nat → Nat

/-- Modelled from the spec: wine_ldt_set_entry writes one slot of the table
from a descriptor entry; the flags byte keeps the slot's ALLOCATED bit. -/
def wine_ldt_set_entry (sel : Nat) (e : LDT_ENTRY) (st : WineLdtCopy) : WineLdtCopy :=
  let index := (sel % 65536) >>> __AHSHIFT
  { baseArr := fun k => if k = index then wine_ldt_get_base e else st.baseArr k
    limitArr := fun k => if k = index then wine_ldt_get_limit e else st.limitArr k
    flagsArr := fun k => if k = index then
        (e.typ ||| (if e.big then WINE_LDT_FLAGS_32BIT else 0) |||
          (st.flagsArr index &&& WINE_LDT_FLAGS_ALLOCATED)) % 256
      else st.flagsArr k }

/-- Modelled from the spec: wine_ldt_get_entry reads one slot back into a
descriptor entry; an unallocated slot reads as the null entry. -/
def wine_ldt_get_entry (sel : Nat) (st : WineLdtCopy) : LDT_ENTRY :=
  let index := (sel % 65536) >>> __AHSHIFT
  if st.flagsArr index &&& WINE_LDT_FLAGS_ALLOCATED ≠ 0 then
    wine_ldt_set_flags
      (wine_ldt_set_limit (wine_ldt_set_base nullEntry (st.baseArr index)) (st.limitArr index))
      (st.flagsArr index)
  else nullEntry

/-- IS_SELECTOR_FREE macro: the slot's ALLOCATED flag bit is clear. -/
def IS_SELECTOR_FREE (st : WineLdtCopy) (sel : Nat) : Bool :=
  st.flagsArr ((sel % 65536) >>> __AHSHIFT) &&& WINE_LDT_FLAGS_ALLOCATED == 0

/-- Scan loop of SELECTOR_AllocArray: walk slot numbers upward, resetting the
run length at every allocated slot; return the last index of the first run of
count consecutive free slots, or none if the table is exhausted.  The loop
counter is the number of slots left below LDT_SIZE (the loop runs while
i < LDT_SIZE), kept structurally decreasing. -/
def allocScanAux (st : WineLdtCopy) (count : Nat) : Nat → Nat → Nat → Option Nat
  | 0, _, _ => none
  | fuel + 1, i, size =>
    if st.flagsArr i &&& WINE_LDT_FLAGS_ALLOCATED ≠ 0 then allocScanAux st count fuel (i + 1) 0
    else if count ≤ size + 1 then some i
    else allocScanAux st count fuel (i + 1) (size + 1)

/-- Entry point of the scan loop, starting at slot i with run length size. -/
def allocScan (st : WineLdtCopy) (count i size : Nat) : Option Nat :=
  allocScanAux st count (LDT_SIZE - i) i size

/-- SELECTOR_AllocArray: allocate a run of count selectors without setting the
LDT entries; returns the updated table and the selector (index << 3 | 7), or 0
on failure. -/
def SELECTOR_AllocArray (st : WineLdtCopy) (count0 : Nat) : WineLdtCopy × Nat :=
  let count := count0 % 65536
  if count = 0 then (st, 0)
  else
    match allocScan st count FIRST_LDT_ENTRY_TO_ALLOC 0 with
    | none => (st, 0)
    | some iEnd =>
      let sel := iEnd - count + 1
      ({ st with flagsArr := fun k =>
          if sel ≤ k ∧ k < sel + count then (st.flagsArr k ||| WINE_LDT_FLAGS_ALLOCATED) % 256
          else st.flagsArr k },
       (sel <<< __AHSHIFT) ||| 7)

/-- FreeSelector16 (KERNEL.176): free one selector; a free selector is left
alone (the selector itself is returned as the error value), otherwise the LDT
entry is cleared and the ALLOCATED flag bit removed, returning 0.  The i386
%fs/%gs register handling is a hardware-context side effect outside the table
model. -/
def FreeSelector16 (st : WineLdtCopy) (sel : Nat) : WineLdtCopy × Nat :=
  if IS_SELECTOR_FREE st sel then (st, sel % 65536)
  else
    let st1 := wine_ldt_set_entry sel nullEntry st
    let index := (sel % 65536) >>> __AHSHIFT
    ({ st1 with flagsArr := fun k =>
        if k = index then (st1.flagsArr k &&& 0xFFFFFF7F) % 256 else st1.flagsArr k }, 0)

/-- Loop body of SELECTOR_SetEntries: write the current entry to the slot of
sel, then advance the entry by one window (base += 0x10000,
limit -= 0x10000, both in 32-bit arithmetic) and move to the next selector
(selector step 1 << __AHSHIFT = 8). -/
def setEntriesLoop : Nat → LDT_ENTRY → WineLdtCopy → Nat → WineLdtCopy
  | _, _, st, 0 => st
  | sel, e, st, n + 1 =>
    let st1 := wine_ldt_set_entry sel e st
    let e1 := wine_ldt_set_limit
      (wine_ldt_set_base e ((wine_ldt_get_base e + 0x10000) % 4294967296))
      ((wine_ldt_get_limit e + 0xFFFF0000) % 4294967296)
    setEntriesLoop (sel + 8) e1 st1 n

/-- SELECTOR_SetEntries: set the LDT entries for an array of selectors
covering size bytes from base; the first entry gets limit = size - 1 (32-bit
arithmetic) and flags, and if base is null and size is 1 the limit is forced
to 1; count = (size + 0xffff) / 0x10000 entries are written. -/
def SELECTOR_SetEntries (st : WineLdtCopy) (sel : Nat) (base : Nat) (size : Nat)
    (flags : Nat) : WineLdtCopy :=
  let e := wine_ldt_set_flags
    (wine_ldt_set_limit (wine_ldt_set_base nullEntry base) ((size + 4294967295) % 4294967296))
    flags
  let e := if base = 0 ∧ size = 1 then wine_ldt_set_limit e 1 else e
  let count := (((size + 0xFFFF) % 4294967296) / 0x10000) % 65536
  setEntriesLoop sel e st count

/-- SELECTOR_AllocBlock: allocate selectors for a block of linear memory;
size 0 returns the null selector with no allocation. -/
def SELECTOR_AllocBlock (st : WineLdtCopy) (base size flags : Nat) : WineLdtCopy × Nat :=
  if size = 0 then (st, 0)
  else
    let count := (((size + 0xFFFF) % 4294967296) / 0x10000) % 65536
    let p := SELECTOR_AllocArray st count
    if p.2 ≠ 0 then (SELECTOR_SetEntries p.1 p.2 base size flags, p.2) else p

/-- get_sel_count: number of selectors needed to cover up to the selector
limit, (limit >> 16) + 1 as a WORD. -/
def get_sel_count (st : WineLdtCopy) (sel : Nat) : Nat :=
  ((st.limitArr ((sel % 65536) >>> __AHSHIFT) >>> 16) + 1) % 65536

/-- Loop of SELECTOR_FreeBlock: call FreeSelector16 on n consecutive
selectors starting at sel (selector step 8). -/
def freeBlockLoop (st : WineLdtCopy) (sel : Nat) : Nat → WineLdtCopy
  | 0 => st
  | n + 1 => freeBlockLoop (FreeSelector16 st sel).1 (sel + 8) n

/-- SELECTOR_FreeBlock: free a block of selectors, deriving the count from the
first slot's limit via get_sel_count. -/
def SELECTOR_FreeBlock (st : WineLdtCopy) (sel : Nat) : WineLdtCopy :=
  freeBlockLoop st sel (get_sel_count st sel)

/-- Modelled from the spec: free_run(selector, count) of spec section 4.1 is
the per-slot free loop of SELECTOR_FreeBlock with the count supplied by the
caller instead of derived from the limit field; each slot is freed with
FreeSelector16 from src. -/
def free_run (st : WineLdtCopy) (sel : Nat) (count : Nat) : WineLdtCopy :=
  freeBlockLoop st sel (count % 65536)

/-- Scan of SELECTOR_ReallocBlock's grow path: starting at i = oldcount, find
the first index i < newcount whose slot (index + i) is allocated; result is
newcount when all of them are free.  The loop counter is newcount - i (the
loop runs while i < newcount), kept structurally decreasing. -/
def reallocScanAux (st : WineLdtCopy) (index : Nat) : Nat → Nat → Nat
  | 0, i => i
  | fuel + 1, i =>
    if st.flagsArr (index + i) &&& WINE_LDT_FLAGS_ALLOCATED ≠ 0 then i
    else reallocScanAux st index fuel (i + 1)

/-- Entry point of the grow-path scan, starting at i below newcount. -/
def reallocScan (st : WineLdtCopy) (index newcount i : Nat) : Nat :=
  reallocScanAux st index (newcount - i) i

/-- SELECTOR_ReallocBlock: change the size of a block of selectors.  Size 0 is
treated as 1.  Growing first tries to take the immediately following free
slots in place; otherwise the old block is freed and a fresh run allocated.
Shrinking frees the trailing slots.  The surviving selectors are rewritten by
SELECTOR_SetEntries with the first descriptor's previous flags. -/
def SELECTOR_ReallocBlock (st : WineLdtCopy) (sel0 base size0 : Nat) : WineLdtCopy × Nat :=
  let sel := sel0 % 65536
  let size := if size0 = 0 then 1 else size0
  let oldcount := get_sel_count st sel
  let newcount := (((size + 0xFFFF) % 4294967296) >>> 16) % 65536
  let entry := wine_ldt_get_entry sel st
  let index := sel >>> __AHSHIFT
  let p : WineLdtCopy × Nat :=
    if oldcount < newcount then
      let i := if LDT_SIZE < index + newcount then oldcount
               else reallocScan st index newcount oldcount
      if i < newcount then
        SELECTOR_AllocArray (SELECTOR_FreeBlock st sel) newcount
      else
        ({ st with flagsArr := fun k =>
            if index + oldcount ≤ k ∧ k < index + newcount then
              (st.flagsArr k ||| WINE_LDT_FLAGS_ALLOCATED) % 256
            else st.flagsArr k }, sel)
    else if newcount < oldcount then
      (SELECTOR_FreeBlock st (sel + (newcount <<< __AHSHIFT)), sel)
    else (st, sel)
  if p.2 ≠ 0 then (SELECTOR_SetEntries p.1 p.2 base size (wine_ldt_get_flags entry), p.2) else p

/-- AllocCStoDSAlias16 (KERNEL.170): allocate one fresh selector and give it a
copy of the source descriptor with the type field set to the data-segment
constant. -/
def AllocCStoDSAlias16 (st : WineLdtCopy) (sel : Nat) : WineLdtCopy × Nat :=
  let p := SELECTOR_AllocArray st 1
  if p.2 = 0 then (p.1, 0)
  else
    let e := wine_ldt_get_entry sel p.1
    let e := { e with typ := WINE_LDT_FLAGS_DATA }
    (wine_ldt_set_entry p.2 e p.1, p.2)

/-- AllocDStoCSAlias16 (KERNEL.171): allocate one fresh selector and give it a
copy of the source descriptor with the type field set to the code-segment
constant. -/
def AllocDStoCSAlias16 (st : WineLdtCopy) (sel : Nat) : WineLdtCopy × Nat :=
  let p := SELECTOR_AllocArray st 1
  if p.2 = 0 then (p.1, 0)
  else
    let e := wine_ldt_get_entry sel p.1
    let e := { e with typ := WINE_LDT_FLAGS_CODE }
    (wine_ldt_set_entry p.2 e p.1, p.2)

/-- Common body of the two alias functions, abstracted over the forced type
constant: AllocCStoDSAlias16 is allocAlias at WINE_LDT_FLAGS_DATA and
AllocDStoCSAlias16 is allocAlias at WINE_LDT_FLAGS_CODE (both definitionally). -/
def allocAlias (st : WineLdtCopy) (sel T : Nat) : WineLdtCopy × Nat :=
  let p := SELECTOR_AllocArray st 1
  if p.2 = 0 then (p.1, 0)
  else
    let e := wine_ldt_get_entry sel p.1
    let e := { e with typ := T }
    (wine_ldt_set_entry p.2 e p.1, p.2)

/-- SELECTOROF: selector component (high word) of a segmented pointer. -/
def SELECTOROF (p : Nat) : Nat := (p >>> 16) % 65536

/-- OFFSETOF: offset component (low word) of a segmented pointer. -/
def OFFSETOF (p : Nat) : Nat := p % 65536

/-- IsBadCodePtr16 (KERNEL.336): true (bad) for the null selector, a free
slot, a descriptor that is not a code segment (conforming, read-only and
accessed bits ignored via the 0x18 mask), or an offset beyond the limit. -/
def IsBadCodePtr16 (st : WineLdtCopy) (lpfn : Nat) : Bool :=
  let sel := SELECTOROF lpfn
  if sel = 0 then true
  else if IS_SELECTOR_FREE st sel then true
  else
    let e := wine_ldt_get_entry sel st
    if (e.typ ^^^ WINE_LDT_FLAGS_CODE) &&& 0x18 ≠ 0 then true
    else if wine_ldt_get_limit e < OFFSETOF lpfn then true
    else false

/-- IsBadHugeReadPtr16 (KERNEL.346): true (bad) for the null selector, a free
slot, a system descriptor, a non-readable code segment, or a nonzero size
whose last byte offset + size - 1 (32-bit arithmetic) exceeds the limit. -/
def IsBadHugeReadPtr16 (st : WineLdtCopy) (ptr size : Nat) : Bool :=
  let sel := SELECTOROF ptr
  if sel = 0 then true
  else if IS_SELECTOR_FREE st sel then true
  else
    let e := wine_ldt_get_entry sel st
    if e.typ &&& 0x10 = 0 then true
    else if e.typ &&& 0x0a = 0x08 then true
    else if size ≠ 0 ∧ wine_ldt_get_limit e < (OFFSETOF ptr + size + 4294967295) % 4294967296
      then true
    else false

/-- IsBadHugeWritePtr16 (KERNEL.347): true (bad) for the null selector, a free
slot, a descriptor that is not writable data (expand-down and accessed bits
ignored via the complement-of-5 mask), or a nonzero size whose last byte
exceeds the limit. -/
def IsBadHugeWritePtr16 (st : WineLdtCopy) (ptr size : Nat) : Bool :=
  let sel := SELECTOROF ptr
  if sel = 0 then true
  else if IS_SELECTOR_FREE st sel then true
  else
    let e := wine_ldt_get_entry sel st
    if (e.typ ^^^ WINE_LDT_FLAGS_DATA) &&& 0xFFFFFFFA ≠ 0 then true
    else if size ≠ 0 ∧ wine_ldt_get_limit e < (OFFSETOF ptr + size + 4294967295) % 4294967296
      then true
    else false

/-- memcpy from linear memory into a caller buffer: buffer slot j receives the
byte at source address src + j (32-bit address arithmetic) for j < n. -/
def memReadBytes (buffer : Nat → Nat) (mem : Nat → Nat) (src : Nat) : Nat → (Nat → Nat)
  | 0 => buffer
  | n + 1 => fun j =>
      if j = n then mem ((src + n) % 4294967296) else memReadBytes buffer mem src n j

/-- memcpy from a caller buffer into linear memory: address dst + j (32-bit
address arithmetic) receives buffer slot j for j < n. -/
def memWriteBytes (mem : Nat → Nat) (dst : Nat) (buffer : Nat → Nat) : Nat → (Nat → Nat)
  | 0 => mem
  | n + 1 => fun a =>
      if a = (dst + n) % 4294967296 then buffer n else memWriteBytes mem dst buffer n a

/-- MemoryRead16 (TOOLHELP.78): returns 0 for an unallocated slot or an offset
beyond the limit; otherwise clamps count to limit + 1 - offset (32-bit
arithmetic) and copies that many bytes out of the slot's memory, returning the
count and the filled buffer. -/
def MemoryRead16 (st : WineLdtCopy) (mem : Nat → Nat) (buffer : Nat → Nat)
    (sel offset count : Nat) : Nat × (Nat → Nat) :=
  let index := (sel % 65536) >>> __AHSHIFT
  if st.flagsArr index &&& WINE_LDT_FLAGS_ALLOCATED = 0 then (0, buffer)
  else if st.limitArr index < offset then (0, buffer)
  else
    let count := if (st.limitArr index + 1) % 4294967296 < (offset + count) % 4294967296
      then ((st.limitArr index + 1) % 4294967296 + 4294967296 - offset % 4294967296) % 4294967296
      else count
    (count, memReadBytes buffer mem ((st.baseArr index + offset) % 4294967296) count)

/-- MemoryWrite16 (TOOLHELP.79): returns 0 for an unallocated slot or an
offset beyond the limit (memory unchanged); otherwise clamps count to
limit + 1 - offset (32-bit arithmetic) and copies that many bytes into the
slot's memory, returning the count and the updated memory. -/
def MemoryWrite16 (st : WineLdtCopy) (mem : Nat → Nat) (buffer : Nat → Nat)
    (sel offset count : Nat) : Nat × (Nat → Nat) :=
  let index := (sel % 65536) >>> __AHSHIFT
  if st.flagsArr index &&& WINE_LDT_FLAGS_ALLOCATED = 0 then (0, mem)
  else if st.limitArr index < offset then (0, mem)
  else
    let count := if (st.limitArr index + 1) % 4294967296 < (offset + count) % 4294967296
      then ((st.limitArr index + 1) % 4294967296 + 4294967296 - offset % 4294967296) % 4294967296
      else count
    (count, memWriteBytes mem ((st.baseArr index + offset) % 4294967296) buffer count)

/-- PTR_SEG_OFF_TO_SEGPTR: pack a selector and an offset into a segmented
pointer (selector in the high word). -/
def PTR_SEG_OFF_TO_SEGPTR (sel off : Nat) : Nat :=
  ((sel % 65536) <<< 16) ||| (off % 65536)

/-- MapSL (KERNEL32.523): segmented to linear, the slot's base plus the
offset (32-bit pointer arithmetic). -/
def MapSL (st : WineLdtCopy) (sptr : Nat) : Nat :=
  (st.baseArr (SELECTOROF sptr >>> __AHSHIFT) + OFFSETOF sptr) % 4294967296

/-- MapLS (KERNEL32.522): linear to segmented; a pointer whose high word is
zero is returned unchanged with no allocation, otherwise a single 64KB data
block is allocated at the pointer itself and selector:0 is returned. -/
def MapLS (st : WineLdtCopy) (ptr : Nat) : WineLdtCopy × Nat :=
  if (ptr >>> 16) % 65536 = 0 then (st, ptr)
  else
    let p := SELECTOR_AllocBlock st ptr 0x10000 WINE_LDT_FLAGS_DATA
    (p.1, PTR_SEG_OFF_TO_SEGPTR p.2 0)

/-- UnMapLS (KERNEL32.700): free the mapped selector when the selector
component is non-null; otherwise do nothing. -/
def UnMapLS (st : WineLdtCopy) (sptr : Nat) : WineLdtCopy :=
  if SELECTOROF sptr ≠ 0 then (FreeSelector16 st (SELECTOROF sptr)).1 else st

/-- GetSelectorLimit16 (KERNEL.188): the raw limit stored for the selector's
slot. -/
def GetSelectorLimit16 (st : WineLdtCopy) (sel : Nat) : Nat :=
  st.limitArr ((sel % 65536) >>> __AHSHIFT)

/-- The empty descriptor table: nothing allocated, all entries zero. -/
def emptyLDT : WineLdtCopy := ⟨fun _ => 0, fun _ => 0, fun _ => 0⟩

/-- A small concrete table for witnesses: slot 512 is an allocated
read-write data slot (flags 0x93) and slot 513 an allocated read-only data
slot (flags 0x91), both with base 0x4000 and limit 0xFF. -/
def testLDT : WineLdtCopy :=
  ⟨fun _ => 0x4000,
   fun k => if k = 512 ∨ k = 513 then 0xFF else 0,
   fun k => if k = 512 then 0x93 else if k = 513 then 0x91 else 0⟩


/-! Helper lemmas: arithmetic facts about shifts, disjoint ors, and the
ALLOCATED flag bit. -/

lemma shiftLeft_or_eq_add (a b n : Nat) (hb : b < 2 ^ n) : (a <<< n) ||| b = a * 2 ^ n + b := by
  have h := Nat.mul_add_lt_is_or hb a
  calc (a <<< n) ||| b = 2 ^ n * a ||| b := by rw [Nat.shiftLeft_eq, Nat.mul_comm]
    _ = 2 ^ n * a + b := h.symm
    _ = a * 2 ^ n + b := by rw [Nat.mul_comm]

lemma or7_eq (k : Nat) : (k <<< 3) ||| 7 = 8 * k + 7 := by
  have h := shiftLeft_or_eq_add k 7 3 (by decide)
  rw [h]
  norm_num [Nat.mul_comm]

lemma orFFF_eq (x : Nat) : (x <<< 12) ||| 0xFFF = x * 4096 + 4095 := by
  have h := shiftLeft_or_eq_add x 0xFFF 12 (by decide)
  rw [h]
  norm_num

lemma shr3_eq (x : Nat) : x >>> 3 = x / 8 := by
  rw [Nat.shiftRight_eq_div_pow]

lemma shr16_eq (x : Nat) : x >>> 16 = x / 65536 := by
  rw [Nat.shiftRight_eq_div_pow]

lemma and128_eq (x : Nat) : x &&& 128 = (x.testBit 7).toNat * 128 := by
  have h := Nat.and_two_pow x 7
  norm_num at h
  exact h

lemma testBit7_mod256 (x : Nat) : (x % 256).testBit 7 = x.testBit 7 := by
  have h := Nat.testBit_mod_two_pow x 8 7
  simpa using h

lemma and128_or128 (x : Nat) : ((x ||| 128) % 256) &&& 128 = 128 := by
  rw [and128_eq, testBit7_mod256, Nat.testBit_or]
  have h : Nat.testBit 128 7 = true := by decide
  rw [h]
  simp

lemma and128_clear (x : Nat) : ((x &&& 0xFFFFFF7F) % 256) &&& 128 = 0 := by
  rw [and128_eq, testBit7_mod256, Nat.testBit_and]
  have h : Nat.testBit 0xFFFFFF7F 7 = false := by decide
  rw [h]
  simp

lemma and128_keep (t b f : Nat) (ht : t < 128) (hb : b = 0 ∨ b = 64) :
    ((t ||| b ||| (f &&& 128)) % 256) &&& 128 = f &&& 128 := by
  rw [and128_eq ((t ||| b ||| (f &&& 128)) % 256), testBit7_mod256, Nat.testBit_or,
    Nat.testBit_or, Nat.testBit_and]
  have h1 : t.testBit 7 = false := Nat.testBit_lt_two_pow (by simpa using ht)
  have h2 : b.testBit 7 = false := by rcases hb with h | h <;> subst h <;> decide
  have h3 : Nat.testBit 128 7 = true := by decide
  rw [h1, h2, h3, and128_eq f]
  simp

lemma and128_cases (x : Nat) : x &&& 128 = 0 ∨ x &&& 128 = 128 := by
  rw [and128_eq]; cases h : x.testBit 7 <;> simp

lemma and128_or_top (t b : Nat) (ht : t < 128) (hb : b = 0 ∨ b = 64) :
    ((t ||| b ||| 128) % 256) &&& 128 = 128 := by
  have h128 : (128 : Nat) &&& 128 = 128 := by decide
  have h := and128_keep t b 128 ht hb
  rw [h128] at h
  exact h

/-! Soundness of the slot-allocator scan: a successful scan ends at a slot r
below LDT_SIZE such that the count slots ending at r are all free and start at
or after the reserved boundary. -/

lemma allocScanAux_sound (st : WineLdtCopy) (count : Nat) :
    ∀ fuel i size r, i + fuel = LDT_SIZE → size ≤ i →
      (∀ j, i - size ≤ j → j < i → st.flagsArr j &&& WINE_LDT_FLAGS_ALLOCATED = 0) →
      allocScanAux st count fuel i size = some r →
      count ≤ r + 1 ∧ r < LDT_SIZE ∧ i - size ≤ r + 1 - count ∧ i ≤ r ∧
        ∀ j, r + 1 - count ≤ j → j ≤ r →
          st.flagsArr j &&& WINE_LDT_FLAGS_ALLOCATED = 0 := by
  intro fuel
  induction fuel with
  | zero => intro i size r hfuel hsize hfree hscan; simp [allocScanAux] at hscan
  | succ fuel ih =>
    intro i size r hfuel hsize hfree hscan
    rw [allocScanAux] at hscan
    by_cases hA : st.flagsArr i &&& WINE_LDT_FLAGS_ALLOCATED ≠ 0
    · rw [if_pos hA] at hscan
      have h := ih (i + 1) 0 r (by omega) (by omega)
        (fun j h1 h2 => absurd h2 (by omega)) hscan
      exact ⟨h.1, h.2.1, by omega, by omega, h.2.2.2.2⟩
    · rw [if_neg hA] at hscan
      have hA0 : st.flagsArr i &&& WINE_LDT_FLAGS_ALLOCATED = 0 := not_ne_iff.mp hA
      by_cases hC : count ≤ size + 1
      · rw [if_pos hC] at hscan
        have hir : i = r := Option.some.inj hscan
        subst hir
        refine ⟨by omega, by omega, by omega, le_refl i, ?_⟩
        intro j h1 h2
        rcases Nat.lt_or_ge j i with h3 | h3
        · exact hfree j (by omega) h3
        · have : j = i := by omega
          rw [this]; exact hA0
      · rw [if_neg hC] at hscan
        have h := ih (i + 1) (size + 1) r (by omega) (by omega)
          (by
            intro j h1 h2
            rcases Nat.lt_or_ge j i with h3 | h3
            · exact hfree j (by omega) h3
            · have : j = i := by omega
              rw [this]; exact hA0) hscan
        exact ⟨h.1, h.2.1, by omega, by omega, h.2.2.2.2⟩

lemma allocScan_some (st : WineLdtCopy) (count r : Nat)
    (h : allocScan st count FIRST_LDT_ENTRY_TO_ALLOC 0 = some r) :
    count ≤ r + 1 ∧ r < 8192 ∧ 512 ≤ r + 1 - count ∧
      ∀ j, r + 1 - count ≤ j → j ≤ r →
        st.flagsArr j &&& WINE_LDT_FLAGS_ALLOCATED = 0 := by
  have h2 := allocScanAux_sound st count (LDT_SIZE - FIRST_LDT_ENTRY_TO_ALLOC)
    FIRST_LDT_ENTRY_TO_ALLOC 0 r (by norm_num [LDT_SIZE, FIRST_LDT_ENTRY_TO_ALLOC])
    (by omega) (fun j h1 h2 => absurd (Nat.lt_of_le_of_lt h1 h2) (by omega)) h
  refine ⟨h2.1, by have := h2.2.1; simpa [LDT_SIZE] using this, ?_, h2.2.2.2.2⟩
  have := h2.2.2.1
  simpa [FIRST_LDT_ENTRY_TO_ALLOC] using this

lemma allocScanAux_one (st : WineLdtCopy) :
    ∀ fuel i size,
      (∃ m, i ≤ m ∧ m < i + fuel ∧ st.flagsArr m &&& WINE_LDT_FLAGS_ALLOCATED = 0) →
      ∃ r, allocScanAux st 1 fuel i size = some r := by
  intro fuel
  induction fuel with
  | zero => intro i size ⟨m, h1, h2, _⟩; omega
  | succ fuel ih =>
    intro i size ⟨m, h1, h2, h3⟩
    rw [allocScanAux]
    by_cases hA : st.flagsArr i &&& WINE_LDT_FLAGS_ALLOCATED ≠ 0
    · rw [if_pos hA]
      refine ih (i + 1) 0 ⟨m, ?_, by omega, h3⟩
      rcases Nat.lt_or_ge i m with h4 | h4
      · omega
      · have : m = i := by omega
        rw [this] at h3; exact absurd h3 hA
    · rw [if_neg hA, if_pos (by omega)]
      exact ⟨i, rfl⟩

/-! Characterization of SELECTOR_AllocArray: either it fails, returning the
null selector and an unchanged table, or it returns selector 8 * idx + 7 for a
previously free run idx .. idx + count - 1 above the reserved boundary, whose
slots are now marked allocated, base and limit arrays untouched. -/

lemma SELECTOR_AllocArray_spec (st : WineLdtCopy) (count0 : Nat) :
    ((SELECTOR_AllocArray st count0).2 = 0 ∧ (SELECTOR_AllocArray st count0).1 = st) ∨
    (∃ idx,
      (SELECTOR_AllocArray st count0).2 = 8 * idx + 7 ∧
      512 ≤ idx ∧ 0 < count0 % 65536 ∧ idx + count0 % 65536 ≤ 8192 ∧
      (∀ j, j < count0 % 65536 →
        st.flagsArr (idx + j) &&& WINE_LDT_FLAGS_ALLOCATED = 0) ∧
      (SELECTOR_AllocArray st count0).1.baseArr = st.baseArr ∧
      (SELECTOR_AllocArray st count0).1.limitArr = st.limitArr ∧
      (∀ k, (SELECTOR_AllocArray st count0).1.flagsArr k =
        if idx ≤ k ∧ k < idx + count0 % 65536 then
          (st.flagsArr k ||| WINE_LDT_FLAGS_ALLOCATED) % 256
        else st.flagsArr k)) := by
  by_cases h0 : count0 % 65536 = 0
  · left
    simp [SELECTOR_AllocArray, h0]
  · rcases hscan : allocScan st (count0 % 65536) FIRST_LDT_ENTRY_TO_ALLOC 0 with _ | iEnd
    · left
      simp [SELECTOR_AllocArray, h0, hscan]
    · right
      have hs := allocScan_some st (count0 % 65536) iEnd hscan
      refine ⟨iEnd - count0 % 65536 + 1, ?_, by omega, by omega, by omega, ?_, ?_, ?_, ?_⟩
      · simp only [SELECTOR_AllocArray, if_neg h0, hscan]
        exact or7_eq _
      · intro j hj
        exact hs.2.2.2 (iEnd - count0 % 65536 + 1 + j) (by omega) (by omega)
      · simp only [SELECTOR_AllocArray, if_neg h0, hscan]
      · simp only [SELECTOR_AllocArray, if_neg h0, hscan]
      · intro k
        simp only [SELECTOR_AllocArray, if_neg h0, hscan]


lemma set_base_fields (e : LDT_ENTRY) (b : Nat) :
    (wine_ldt_set_base e b).base = b % 4294967296 ∧
    (wine_ldt_set_base e b).limitRaw = e.limitRaw ∧
    (wine_ldt_set_base e b).granularity = e.granularity ∧
    (wine_ldt_set_base e b).typ = e.typ ∧ (wine_ldt_set_base e b).big = e.big :=
  ⟨rfl, rfl, rfl, rfl, rfl⟩

lemma set_limit_fields (e : LDT_ENTRY) (l : Nat) :
    (wine_ldt_set_limit e l).base = e.base ∧
    (wine_ldt_set_limit e l).typ = e.typ ∧ (wine_ldt_set_limit e l).big = e.big := by
  unfold wine_ldt_set_limit
  split <;> exact ⟨rfl, rfl, rfl⟩

lemma get_limit_set_limit_small (e : LDT_ENTRY) (l : Nat) (h : l < 1048576) :
    wine_ldt_get_limit (wine_ldt_set_limit e l) = l := by
  rw [wine_ldt_set_limit, if_neg (show ¬ (1048576 : Nat) ≤ l by omega)]
  rw [wine_ldt_get_limit]
  simp [Nat.mod_eq_of_lt h]

lemma set_limit_small_fields (e : LDT_ENTRY) (l : Nat) (h : l < 1048576) :
    (wine_ldt_set_limit e l).granularity = false ∧
    (wine_ldt_set_limit e l).limitRaw = l := by
  rw [wine_ldt_set_limit, if_neg (show ¬ (1048576 : Nat) ≤ l by omega)]
  exact ⟨rfl, Nat.mod_eq_of_lt h⟩

lemma sel_index_eq (sel : Nat) (h : sel < 65536) :
    (sel % 65536) >>> __AHSHIFT = sel / 8 := by
  rw [Nat.mod_eq_of_lt h]
  show sel >>> 3 = sel / 8
  exact shr3_eq sel

lemma set_entry_base_at (sel : Nat) (e : LDT_ENTRY) (st : WineLdtCopy) (k : Nat) :
    (wine_ldt_set_entry sel e st).baseArr k =
      if k = (sel % 65536) >>> __AHSHIFT then e.base else st.baseArr k := rfl

lemma set_entry_limit_at (sel : Nat) (e : LDT_ENTRY) (st : WineLdtCopy) (k : Nat) :
    (wine_ldt_set_entry sel e st).limitArr k =
      if k = (sel % 65536) >>> __AHSHIFT then wine_ldt_get_limit e else st.limitArr k := rfl

lemma set_entry_flags_at (sel : Nat) (e : LDT_ENTRY) (st : WineLdtCopy) (k : Nat) :
    (wine_ldt_set_entry sel e st).flagsArr k =
      if k = (sel % 65536) >>> __AHSHIFT then
        (e.typ ||| (if e.big then WINE_LDT_FLAGS_32BIT else 0) |||
          (st.flagsArr ((sel % 65536) >>> __AHSHIFT) &&& WINE_LDT_FLAGS_ALLOCATED)) % 256
      else st.flagsArr k := rfl

lemma setEntriesLoop_spec :
    ∀ n sel e st, sel % 8 = 7 → sel / 8 + n ≤ 8192 → e.base < 4294967296 →
      (∀ k, (∀ j, j < n → k ≠ sel / 8 + j) →
        (setEntriesLoop sel e st n).baseArr k = st.baseArr k ∧
        (setEntriesLoop sel e st n).limitArr k = st.limitArr k ∧
        (setEntriesLoop sel e st n).flagsArr k = st.flagsArr k) ∧
      (∀ j, j < n →
        (setEntriesLoop sel e st n).baseArr (sel / 8 + j) =
          (e.base + 65536 * j) % 4294967296 ∧
        (setEntriesLoop sel e st n).flagsArr (sel / 8 + j) =
          (e.typ ||| (if e.big then WINE_LDT_FLAGS_32BIT else 0) |||
            (st.flagsArr (sel / 8 + j) &&& WINE_LDT_FLAGS_ALLOCATED)) % 256) := by
  intro n
  induction n with
  | zero =>
    intro sel e st hsel hbound hbase
    exact ⟨fun k _ => ⟨rfl, rfl, rfl⟩, fun j hj => absurd hj (by omega)⟩
  | succ n ih =>
    intro sel e st hsel hbound hbase
    have hsel16 : sel < 65536 := by omega
    have hidx : (sel % 65536) >>> __AHSHIFT = sel / 8 := sel_index_eq sel hsel16
    have hstep : setEntriesLoop sel e st (n + 1) =
        setEntriesLoop (sel + 8)
          (wine_ldt_set_limit
            (wine_ldt_set_base e ((wine_ldt_get_base e + 0x10000) % 4294967296))
            ((wine_ldt_get_limit e + 0xFFFF0000) % 4294967296))
          (wine_ldt_set_entry sel e st) n := rfl
    set e1 := wine_ldt_set_limit
      (wine_ldt_set_base e ((wine_ldt_get_base e + 0x10000) % 4294967296))
      ((wine_ldt_get_limit e + 0xFFFF0000) % 4294967296) with he1
    set st1 := wine_ldt_set_entry sel e st with hst1
    have he1base : e1.base = (e.base + 65536) % 4294967296 := by
      rw [he1, (set_limit_fields _ _).1, (set_base_fields _ _).1]
      simp only [wine_ldt_get_base]
      omega
    have he1typ : e1.typ = e.typ := by
      rw [he1, (set_limit_fields _ _).2.1, (set_base_fields _ _).2.2.2.1]
    have he1big : e1.big = e.big := by
      rw [he1, (set_limit_fields _ _).2.2, (set_base_fields _ _).2.2.2.2]
    have hdiv : (sel + 8) / 8 = sel / 8 + 1 := by omega
    have ih2 := ih (sel + 8) e1 st1 (by omega) (by omega) (by rw [he1base]; omega)
    have hst1base : ∀ k, st1.baseArr k =
        if k = sel / 8 then e.base else st.baseArr k := by
      intro k
      simp only [hst1, set_entry_base_at, hidx]
    have hst1limit : ∀ k, st1.limitArr k =
        if k = sel / 8 then wine_ldt_get_limit e else st.limitArr k := by
      intro k
      simp only [hst1, set_entry_limit_at, hidx]
    have hst1flags : ∀ k, st1.flagsArr k =
        if k = sel / 8 then
          (e.typ ||| (if e.big then WINE_LDT_FLAGS_32BIT else 0) |||
            (st.flagsArr (sel / 8) &&& WINE_LDT_FLAGS_ALLOCATED)) % 256
        else st.flagsArr k := by
      intro k
      simp only [hst1, set_entry_flags_at, hidx]
    constructor
    · intro k hk
      have hk0 : k ≠ sel / 8 := by
        have := hk 0 (by omega)
        simpa using this
      have hkr : ∀ j, j < n → k ≠ (sel + 8) / 8 + j := by
        intro j hj
        rw [hdiv]
        have := hk (j + 1) (by omega)
        omega
      have hu := ih2.1 k hkr
      rw [hstep]
      refine ⟨?_, ?_, ?_⟩
      · rw [hu.1, hst1base, if_neg hk0]
      · rw [hu.2.1, hst1limit, if_neg hk0]
      · rw [hu.2.2, hst1flags, if_neg hk0]
    · intro j hj
      rw [hstep]
      rcases j with _ | j
      · have hkr : ∀ j2, j2 < n → sel / 8 + 0 ≠ (sel + 8) / 8 + j2 := by
          intro j2 hj2
          rw [hdiv]; omega
        have hu := ih2.1 (sel / 8 + 0) hkr
        constructor
        · rw [hu.1, hst1base, if_pos (show sel / 8 + 0 = sel / 8 by omega)]
          have h2 : e.base % 4294967296 = e.base := Nat.mod_eq_of_lt hbase
          omega
        · rw [hu.2.2, hst1flags, if_pos (show sel / 8 + 0 = sel / 8 by omega)]
          norm_num
      · have ht := ih2.2 j (by omega)
        have hrw : (sel + 8) / 8 + j = sel / 8 + (j + 1) := by omega
        rw [hrw] at ht
        constructor
        · rw [ht.1, he1base]
          have h1 : (65536 : Nat) * (j + 1) = 65536 * j + 65536 := by ring
          rw [h1]
          omega
        · rw [ht.2, he1typ, he1big, hst1flags (sel / 8 + (j + 1)),
            if_neg (show ¬ sel / 8 + (j + 1) = sel / 8 by omega)]


lemma setEntriesLoop_limit :
    ∀ n sel e st, sel % 8 = 7 → sel / 8 + n ≤ 8192 → e.granularity = false →
      e.limitRaw < 1048576 → 65536 * (n - 1) ≤ e.limitRaw →
      ∀ j, j < n →
        (setEntriesLoop sel e st n).limitArr (sel / 8 + j) = e.limitRaw - 65536 * j := by
  intro n
  induction n with
  | zero => intro sel e st _ _ _ _ _ j hj; exact absurd hj (by omega)
  | succ n ih =>
    intro sel e st hsel hbound hgran hsmall hbig j hj
    have hsel16 : sel < 65536 := by omega
    have hidx : (sel % 65536) >>> __AHSHIFT = sel / 8 := sel_index_eq sel hsel16
    have hgl : wine_ldt_get_limit e = e.limitRaw := by
      rw [wine_ldt_get_limit, hgran]
      simp
    have hstep : setEntriesLoop sel e st (n + 1) =
        setEntriesLoop (sel + 8)
          (wine_ldt_set_limit
            (wine_ldt_set_base e ((wine_ldt_get_base e + 0x10000) % 4294967296))
            ((wine_ldt_get_limit e + 0xFFFF0000) % 4294967296))
          (wine_ldt_set_entry sel e st) n := rfl
    set e1 := wine_ldt_set_limit
      (wine_ldt_set_base e ((wine_ldt_get_base e + 0x10000) % 4294967296))
      ((wine_ldt_get_limit e + 0xFFFF0000) % 4294967296) with he1
    set st1 := wine_ldt_set_entry sel e st with hst1
    have he1base : e1.base = (e.base + 65536) % 4294967296 := by
      rw [he1, (set_limit_fields _ _).1, (set_base_fields _ _).1]
      simp only [wine_ldt_get_base]
      omega
    have hdiv : (sel + 8) / 8 = sel / 8 + 1 := by omega
    rcases j with _ | j
    · have spec2 := setEntriesLoop_spec n (sel + 8)
        e1 st1 (by omega) (by omega) (by rw [he1base]; omega)
      have hkr : ∀ j2, j2 < n → sel / 8 + 0 ≠ (sel + 8) / 8 + j2 := by
        intro j2 hj2
        rw [hdiv]; omega
      have hu := spec2.1 (sel / 8 + 0) hkr
      rw [hstep, hu.2.1, hst1, set_entry_limit_at, hidx,
        if_pos (show sel / 8 + 0 = sel / 8 by omega), hgl]
      omega
    · have hn1 : 1 ≤ n := by omega
      have hbig2 : 65536 * n ≤ e.limitRaw := by
        have := hbig
        omega
    
      have hv : (wine_ldt_get_limit e + 0xFFFF0000) % 4294967296 =
          e.limitRaw - 65536 := by
        rw [hgl]
        omega
      have he1small := set_limit_small_fields
        (wine_ldt_set_base e ((wine_ldt_get_base e + 0x10000) % 4294967296))
        ((wine_ldt_get_limit e + 0xFFFF0000) % 4294967296)
        (by rw [hv]; omega)
      have he1gran : e1.granularity = false := by rw [he1]; exact he1small.1
      have he1raw : e1.limitRaw = e.limitRaw - 65536 := by
        rw [he1, he1small.2, hv]
      have ih2 := ih (sel + 8) e1 st1 (by omega) (by omega) he1gran
        (by rw [he1raw]; omega) (by rw [he1raw]; omega) j (by omega)
      rw [hdiv] at ih2
      rw [hstep]
      rw [show sel / 8 + (j + 1) = sel / 8 + 1 + j by omega, ih2, he1raw]
      have : (65536 : Nat) * (j + 1) = 65536 * j + 65536 := by ring
      omega


lemma FreeSelector16_state (st : WineLdtCopy) (sel : Nat) :
    (∀ k, k ≠ (sel % 65536) >>> __AHSHIFT →
      (FreeSelector16 st sel).1.baseArr k = st.baseArr k ∧
      (FreeSelector16 st sel).1.limitArr k = st.limitArr k ∧
      (FreeSelector16 st sel).1.flagsArr k = st.flagsArr k) ∧
    (FreeSelector16 st sel).1.flagsArr ((sel % 65536) >>> __AHSHIFT) &&&
      WINE_LDT_FLAGS_ALLOCATED = 0 := by
  by_cases hfree : IS_SELECTOR_FREE st sel = true
  · rw [FreeSelector16, if_pos hfree]
    refine ⟨fun k _ => ⟨rfl, rfl, rfl⟩, ?_⟩
    simpa [IS_SELECTOR_FREE] using hfree
  · rw [FreeSelector16, if_neg hfree]
    constructor
    · intro k hk
      refine ⟨?_, ?_, ?_⟩
      · show (wine_ldt_set_entry sel nullEntry st).baseArr k = st.baseArr k
        rw [set_entry_base_at, if_neg hk]
      · show (wine_ldt_set_entry sel nullEntry st).limitArr k = st.limitArr k
        rw [set_entry_limit_at, if_neg hk]
      · show (if k = (sel % 65536) >>> __AHSHIFT then
            ((wine_ldt_set_entry sel nullEntry st).flagsArr k &&& 0xFFFFFF7F) % 256
          else (wine_ldt_set_entry sel nullEntry st).flagsArr k) = st.flagsArr k
        rw [if_neg hk, set_entry_flags_at, if_neg hk]
    · show (if (sel % 65536) >>> __AHSHIFT = (sel % 65536) >>> __AHSHIFT then
          ((wine_ldt_set_entry sel nullEntry st).flagsArr ((sel % 65536) >>> __AHSHIFT)
            &&& 0xFFFFFF7F) % 256
        else (wine_ldt_set_entry sel nullEntry st).flagsArr ((sel % 65536) >>> __AHSHIFT))
          &&& WINE_LDT_FLAGS_ALLOCATED = 0
      rw [if_pos rfl]
      exact and128_clear _

lemma freeBlockLoop_spec :
    ∀ n sel st, sel % 8 = 7 → sel / 8 + n ≤ 8192 →
      (∀ k, (∀ j, j < n → k ≠ sel / 8 + j) →
        (freeBlockLoop st sel n).baseArr k = st.baseArr k ∧
        (freeBlockLoop st sel n).limitArr k = st.limitArr k ∧
        (freeBlockLoop st sel n).flagsArr k = st.flagsArr k) ∧
      (∀ j, j < n →
        (freeBlockLoop st sel n).flagsArr (sel / 8 + j) &&&
          WINE_LDT_FLAGS_ALLOCATED = 0) := by
  intro n
  induction n with
  | zero =>
    intro sel st hsel hbound
    exact ⟨fun k _ => ⟨rfl, rfl, rfl⟩, fun j hj => absurd hj (by omega)⟩
  | succ n ih =>
    intro sel st hsel hbound
    have hsel16 : sel < 65536 := by omega
    have hidx : (sel % 65536) >>> __AHSHIFT = sel / 8 := sel_index_eq sel hsel16
    have hdiv : (sel + 8) / 8 = sel / 8 + 1 := by omega
    have hstep : freeBlockLoop st sel (n + 1) =
        freeBlockLoop (FreeSelector16 st sel).1 (sel + 8) n := rfl
    have hFS := FreeSelector16_state st sel
    rw [hidx] at hFS
    have ih2 := ih (sel + 8) (FreeSelector16 st sel).1 (by omega) (by omega)
    constructor
    · intro k hk
      have hk0 : k ≠ sel / 8 := by
        have := hk 0 (by omega)
        simpa using this
      have hkr : ∀ j, j < n → k ≠ (sel + 8) / 8 + j := by
        intro j hj
        rw [hdiv]
        have := hk (j + 1) (by omega)
        omega
      have hu := ih2.1 k hkr
      have hf := hFS.1 k hk0
      rw [hstep]
      exact ⟨hu.1.trans hf.1, hu.2.1.trans hf.2.1, hu.2.2.trans hf.2.2⟩
    · intro j hj
      rw [hstep]
      rcases j with _ | j
      · have hkr : ∀ j2, j2 < n → sel / 8 + 0 ≠ (sel + 8) / 8 + j2 := by
          intro j2 hj2
          rw [hdiv]; omega
        have hu := ih2.1 (sel / 8 + 0) hkr
        rw [hu.2.2]
        have := hFS.2
        simpa using this
      · have ht := ih2.2 j (by omega)
        rw [hdiv] at ht
        rw [show sel / 8 + (j + 1) = sel / 8 + 1 + j by omega]
        exact ht

lemma reallocScanAux_all_free (st : WineLdtCopy) (index : Nat) :
    ∀ fuel i,
      (∀ j, i ≤ j → j < i + fuel →
        st.flagsArr (index + j) &&& WINE_LDT_FLAGS_ALLOCATED = 0) →
      reallocScanAux st index fuel i = i + fuel := by
  intro fuel
  induction fuel with
  | zero => intro i _; rfl
  | succ fuel ih =>
    intro i hfree
    rw [reallocScanAux,
      if_neg (show ¬ st.flagsArr (index + i) &&& WINE_LDT_FLAGS_ALLOCATED ≠ 0 by
        have := hfree i (le_refl i) (by omega)
        omega)]
    have := ih (i + 1) (fun j h1 h2 => hfree j (by omega) (by omega))
    omega


lemma set_flags_fields (e : LDT_ENTRY) (f : Nat) :
    (wine_ldt_set_flags e f).base = e.base ∧
    (wine_ldt_set_flags e f).limitRaw = e.limitRaw ∧
    (wine_ldt_set_flags e f).granularity = e.granularity ∧
    (wine_ldt_set_flags e f).typ = f % 32 ∧
    (wine_ldt_set_flags e f).big = ((f &&& WINE_LDT_FLAGS_32BIT) != 0) :=
  ⟨rfl, rfl, rfl, rfl, rfl⟩

lemma sel8_mod (idx : Nat) : (8 * idx + 7) % 8 = 7 := by omega

lemma sel8_div (idx : Nat) : (8 * idx + 7) / 8 = idx := by omega

lemma SELECTOR_AllocBlock_spec (st : WineLdtCopy) (base size flags : Nat)
    (h1 : 1 ≤ size) (h2 : size ≤ 1048576) (hbase : base < 4294967296)
    (hnz : ¬ (base = 0 ∧ size = 1))
    (hsel : (SELECTOR_AllocBlock st base size flags).2 ≠ 0) :
    ∃ idx,
      (SELECTOR_AllocBlock st base size flags).2 = 8 * idx + 7 ∧
      512 ≤ idx ∧ idx + (size + 65535) / 65536 ≤ 8192 ∧
      (∀ j, j < (size + 65535) / 65536 →
        st.flagsArr (idx + j) &&& WINE_LDT_FLAGS_ALLOCATED = 0) ∧
      (∀ j, j < (size + 65535) / 65536 →
        (SELECTOR_AllocBlock st base size flags).1.limitArr (idx + j) =
          size - 1 - 65536 * j ∧
        (SELECTOR_AllocBlock st base size flags).1.baseArr (idx + j) =
          (base + 65536 * j) % 4294967296 ∧
        (SELECTOR_AllocBlock st base size flags).1.flagsArr (idx + j) &&&
          WINE_LDT_FLAGS_ALLOCATED = WINE_LDT_FLAGS_ALLOCATED ∧
        (SELECTOR_AllocBlock st base size flags).1.flagsArr (idx + j) =
          ((flags % 32) ||| (if (flags &&& WINE_LDT_FLAGS_32BIT) != 0
            then WINE_LDT_FLAGS_32BIT else 0) ||| WINE_LDT_FLAGS_ALLOCATED) % 256) ∧
      (∀ k, k < idx ∨ idx + (size + 65535) / 65536 ≤ k →
        (SELECTOR_AllocBlock st base size flags).1.baseArr k = st.baseArr k ∧
        (SELECTOR_AllocBlock st base size flags).1.limitArr k = st.limitArr k ∧
        (SELECTOR_AllocBlock st base size flags).1.flagsArr k = st.flagsArr k) := by
  have h0 : ¬ size = 0 := by omega
  have hc : ((size + 65535) % 4294967296) / 65536 % 65536 = (size + 65535) / 65536 := by
    omega
  have hcle : (size + 65535) / 65536 ≤ 16 := by omega
  have hcpos : 1 ≤ (size + 65535) / 65536 := by omega
  have hunfold : SELECTOR_AllocBlock st base size flags =
      if (SELECTOR_AllocArray st ((size + 65535) / 65536)).2 ≠ 0 then
        (SELECTOR_SetEntries (SELECTOR_AllocArray st ((size + 65535) / 65536)).1
          (SELECTOR_AllocArray st ((size + 65535) / 65536)).2 base size flags,
         (SELECTOR_AllocArray st ((size + 65535) / 65536)).2)
      else SELECTOR_AllocArray st ((size + 65535) / 65536) := by
    rw [SELECTOR_AllocBlock, if_neg h0, hc]
  have hcm : (size + 65535) / 65536 % 65536 = (size + 65535) / 65536 :=
    Nat.mod_eq_of_lt (by omega)
  rcases SELECTOR_AllocArray_spec st ((size + 65535) / 65536) with ⟨hz, _⟩ |
    ⟨idx, hp2, h512, _, hcap, hfree, hbArr, hlArr, hfArr⟩
  · rw [hunfold, if_neg (not_ne_iff.mpr hz)] at hsel
    exact absurd hz hsel
  · rw [hcm] at hcap hfree hfArr
    have hp2nz : (SELECTOR_AllocArray st ((size + 65535) / 65536)).2 ≠ 0 := by
      rw [hp2]; omega
    have hres : SELECTOR_AllocBlock st base size flags =
        (SELECTOR_SetEntries (SELECTOR_AllocArray st ((size + 65535) / 65536)).1
          (8 * idx + 7) base size flags, 8 * idx + 7) := by
      rw [hunfold, if_pos hp2nz, hp2]
    have hsize1 : (size + 4294967295) % 4294967296 = size - 1 := by omega
    have hSE : SELECTOR_SetEntries
        (SELECTOR_AllocArray st ((size + 65535) / 65536)).1 (8 * idx + 7) base size flags =
        setEntriesLoop (8 * idx + 7)
          (wine_ldt_set_flags
            (wine_ldt_set_limit (wine_ldt_set_base nullEntry base) (size - 1)) flags)
          (SELECTOR_AllocArray st ((size + 65535) / 65536)).1
          ((size + 65535) / 65536) := by
      rw [SELECTOR_SetEntries, hsize1, if_neg hnz, hc]
    set e0 := wine_ldt_set_flags
      (wine_ldt_set_limit (wine_ldt_set_base nullEntry base) (size - 1)) flags with he0
    have he0base : e0.base = base := by
      rw [he0, (set_flags_fields _ _).1, (set_limit_fields _ _).1,
        (set_base_fields _ _).1]
      exact Nat.mod_eq_of_lt hbase
    have hsl := set_limit_small_fields (wine_ldt_set_base nullEntry base) (size - 1)
      (by omega)
    have he0gran : e0.granularity = false := by
      rw [he0, (set_flags_fields _ _).2.2.1]
      exact hsl.1
    have he0raw : e0.limitRaw = size - 1 := by
      rw [he0, (set_flags_fields _ _).2.1]
      exact hsl.2
    have he0typ : e0.typ = flags % 32 := (set_flags_fields _ _).2.2.2.1
    have hspec := setEntriesLoop_spec ((size + 65535) / 65536) (8 * idx + 7) e0
      (SELECTOR_AllocArray st ((size + 65535) / 65536)).1
      (sel8_mod idx) (by rw [sel8_div]; omega) (by rw [he0base]; omega)
    have hlim := setEntriesLoop_limit ((size + 65535) / 65536) (8 * idx + 7) e0
      (SELECTOR_AllocArray st ((size + 65535) / 65536)).1
      (sel8_mod idx) (by rw [sel8_div]; omega) he0gran (by omega)
      (by rw [he0raw]; omega)
    rw [sel8_div] at hspec hlim
    refine ⟨idx, by rw [hres], h512, hcap, hfree, ?_, ?_⟩
    · intro j hj
      have hl := hlim j hj
      have hbf := hspec.2 j hj
      rw [he0raw] at hl
      rw [he0base] at hbf
      have he0big : e0.big = ((flags &&& WINE_LDT_FLAGS_32BIT) != 0) :=
        (set_flags_fields _ _).2.2.2.2
      have hflagsFull : (SELECTOR_AllocBlock st base size flags).1.flagsArr (idx + j) =
          ((flags % 32) ||| (if (flags &&& WINE_LDT_FLAGS_32BIT) != 0
            then WINE_LDT_FLAGS_32BIT else 0) ||| WINE_LDT_FLAGS_ALLOCATED) % 256 := by
        rw [hres]
        show (SELECTOR_SetEntries _ _ _ _ _).flagsArr (idx + j) = _
        rw [hSE, hbf.2, hfArr (idx + j),
          if_pos (show idx ≤ idx + j ∧ idx + j < idx + (size + 65535) / 65536 from
            ⟨by omega, by omega⟩)]
        have hor : (st.flagsArr (idx + j) ||| WINE_LDT_FLAGS_ALLOCATED) % 256 &&&
            WINE_LDT_FLAGS_ALLOCATED = WINE_LDT_FLAGS_ALLOCATED := and128_or128 _
        rw [hor, he0typ, he0big]
      refine ⟨?_, ?_, ?_, hflagsFull⟩
      · rw [hres]
        show (SELECTOR_SetEntries _ _ _ _ _).limitArr (idx + j) = _
        rw [hSE, hl]
      · rw [hres]
        show (SELECTOR_SetEntries _ _ _ _ _).baseArr (idx + j) = _
        rw [hSE, hbf.1]
      · rw [hflagsFull]
        show ((flags % 32) ||| (if (flags &&& WINE_LDT_FLAGS_32BIT) != 0
            then WINE_LDT_FLAGS_32BIT else 0) ||| 128) % 256 &&& 128 = 128
        exact and128_or_top _ _ (by omega)
          (by cases h64 : (flags &&& WINE_LDT_FLAGS_32BIT) != 0 <;>
            simp [h64, WINE_LDT_FLAGS_32BIT])
    · intro k hk
      have hout : ∀ j, j < (size + 65535) / 65536 → k ≠ idx + j := by
        intro j hj
        omega
      have hu := hspec.1 k hout
      refine ⟨?_, ?_, ?_⟩
      · rw [hres]
        show (SELECTOR_SetEntries _ _ _ _ _).baseArr k = _
        rw [hSE, hu.1, hbArr]
      · rw [hres]
        show (SELECTOR_SetEntries _ _ _ _ _).limitArr k = _
        rw [hSE, hu.2.1, hlArr]
      · rw [hres]
        show (SELECTOR_SetEntries _ _ _ _ _).flagsArr k = _
        rw [hSE, hu.2.2, hfArr k, if_neg (by omega)]


lemma GetSelectorLimit16_at (st : WineLdtCopy) (idx j : Nat) (h : idx + j < 8192) :
    GetSelectorLimit16 st (8 * idx + 7 + 8 * j) = st.limitArr (idx + j) := by
  rw [GetSelectorLimit16, sel_index_eq _ (by omega),
    show (8 * idx + 7 + 8 * j) / 8 = idx + j by omega]

lemma get_sel_count_at (st : WineLdtCopy) (idx j : Nat) (h : idx + j < 8192) :
    get_sel_count st (8 * idx + 7 + 8 * j) = (st.limitArr (idx + j) / 65536 + 1) % 65536 := by
  rw [get_sel_count, sel_index_eq _ (by omega),
    show (8 * idx + 7 + 8 * j) / 8 = idx + j by omega, shr16_eq]


/-- C1, corrected part: on the block sizer's 3-window block of size 0x20001
(at linear base 0x400000, data flags, empty table), the limit lookups on
windows 0, 1, 2 return 0x20000, 0x10000 and 0 - not 0xFFFF, 0xFFFF, 0 as the
claim states: a non-last slot's limit spans to the end of the block instead of
saturating at 0xFFFF. -/
theorem C1_counterexample :
    (SELECTOR_AllocBlock emptyLDT 4194304 131073 WINE_LDT_FLAGS_DATA).2 = 4103 ∧
    GetSelectorLimit16 (SELECTOR_AllocBlock emptyLDT 4194304 131073 WINE_LDT_FLAGS_DATA).1
      4103 = 131072 ∧
    GetSelectorLimit16 (SELECTOR_AllocBlock emptyLDT 4194304 131073 WINE_LDT_FLAGS_DATA).1
      (4103 + 8) = 65536 ∧
    GetSelectorLimit16 (SELECTOR_AllocBlock emptyLDT 4194304 131073 WINE_LDT_FLAGS_DATA).1
      (4103 + 16) = 0 ∧
    (131072 : Nat) ≠ 65535 := by
  decide

/-- C1, amended: a block allocated by SELECTOR_AllocBlock occupies contiguous
slots idx, idx + 1, ..., all freshly allocated; window j's limit lookup
returns size - 1 - j * 0x10000, i.e. each slot spans from its own window to
the end of the block (so every slot except the last has a limit strictly above
0xFFFF, and the last slot's limit is the remainder (size - 1) mod 0x10000); in
particular the 3-window block of size 0x20001 answers 0x20000, 0x10000, 0. -/
theorem C1_amended_limits (st : WineLdtCopy) (base size flags : Nat)
    (h1 : 1 ≤ size) (h2 : size ≤ 1048576) (hbase : base < 4294967296)
    (hnz : ¬ (base = 0 ∧ size = 1))
    (hsel : (SELECTOR_AllocBlock st base size flags).2 ≠ 0) :
    ∃ idx, (SELECTOR_AllocBlock st base size flags).2 = 8 * idx + 7 ∧
      idx + (size + 65535) / 65536 ≤ 8192 ∧
      (∀ j, j < (size + 65535) / 65536 →
        st.flagsArr (idx + j) &&& WINE_LDT_FLAGS_ALLOCATED = 0 ∧
        (SELECTOR_AllocBlock st base size flags).1.flagsArr (idx + j) &&&
          WINE_LDT_FLAGS_ALLOCATED = WINE_LDT_FLAGS_ALLOCATED) ∧
      (∀ j, j < (size + 65535) / 65536 →
        GetSelectorLimit16 (SELECTOR_AllocBlock st base size flags).1
          ((SELECTOR_AllocBlock st base size flags).2 + 8 * j) =
          size - 1 - 65536 * j) := by
  obtain ⟨idx, hs, h512, hcap, hfree, hslot, _⟩ :=
    SELECTOR_AllocBlock_spec st base size flags h1 h2 hbase hnz hsel
  refine ⟨idx, hs, hcap, fun j hj => ⟨hfree j hj, (hslot j hj).2.2.1⟩, ?_⟩
  intro j hj
  rw [hs, show 8 * idx + 7 + 8 * j = 8 * idx + 7 + 8 * j from rfl,
    GetSelectorLimit16_at _ idx j (by omega)]
  exact (hslot j hj).1

/-- C1 witness: the amended statement evaluated on the 3-window scenario. -/
theorem C1_witness :
    1 ≤ 131073 ∧ ¬ ((4194304 : Nat) = 0 ∧ (131073 : Nat) = 1) ∧
    (SELECTOR_AllocBlock emptyLDT 4194304 131073 WINE_LDT_FLAGS_DATA).2 ≠ 0 ∧
    (∃ idx, (SELECTOR_AllocBlock emptyLDT 4194304 131073 WINE_LDT_FLAGS_DATA).2 =
        8 * idx + 7 ∧
      idx + (131073 + 65535) / 65536 ≤ 8192 ∧
      (∀ j, j < (131073 + 65535) / 65536 →
        emptyLDT.flagsArr (idx + j) &&& WINE_LDT_FLAGS_ALLOCATED = 0 ∧
        (SELECTOR_AllocBlock emptyLDT 4194304 131073 WINE_LDT_FLAGS_DATA).1.flagsArr
          (idx + j) &&& WINE_LDT_FLAGS_ALLOCATED = WINE_LDT_FLAGS_ALLOCATED) ∧
      (∀ j, j < (131073 + 65535) / 65536 →
        GetSelectorLimit16 (SELECTOR_AllocBlock emptyLDT 4194304 131073
          WINE_LDT_FLAGS_DATA).1
          ((SELECTOR_AllocBlock emptyLDT 4194304 131073 WINE_LDT_FLAGS_DATA).2 + 8 * j) =
          131073 - 1 - 65536 * j)) :=
  ⟨by decide, by decide, by decide,
    C1_amended_limits emptyLDT 4194304 131073 WINE_LDT_FLAGS_DATA (by decide) (by decide)
      (by decide) (by decide) (by decide)⟩


/-- C2, corrected part: for size 0x10001 the remainder (size - 1) mod 0x10000
is 0, so the claim's exception says the last window's limit is 0xFFFF; the
code instead gives the last (second) window the limit 0. -/
theorem C2_counterexample :
    (65537 - 1) % 65536 = 0 ∧
    (SELECTOR_AllocBlock emptyLDT 4194304 65537 WINE_LDT_FLAGS_DATA).2 = 4103 ∧
    GetSelectorLimit16 (SELECTOR_AllocBlock emptyLDT 4194304 65537 WINE_LDT_FLAGS_DATA).1
      (4103 + 8) = 0 ∧
    (0 : Nat) ≠ 65535 := by
  decide

/-- C2, amended: alloc_block with size 0 returns the null selector leaving the
table untouched; for a nonzero base and size in {1, 0xFFFF, 0x10000, 0x10001,
0x20000} a successful allocation takes exactly {1, 1, 1, 2, 2} fresh slots
respectively (all other slots untouched), and the last window's limit is
always (size - 1) mod 0x10000 - with no exception: when that remainder would
be 0 (size = 0x10001) the limit really is 0, and an exact multiple of 0x10000
lands on 0xFFFF through the same formula. -/
theorem C2_sizes (st : WineLdtCopy) (base flags size k : Nat)
    (hb1 : 0 < base) (hb2 : base < 4294967296)
    (hmem : (size, k) ∈ [(1, 1), (65535, 1), (65536, 1), (65537, 2), (131072, 2)])
    (hsel : (SELECTOR_AllocBlock st base size flags).2 ≠ 0) :
    SELECTOR_AllocBlock st base 0 flags = (st, 0) ∧
    ∃ idx, (SELECTOR_AllocBlock st base size flags).2 = 8 * idx + 7 ∧
      idx + k ≤ 8192 ∧
      (∀ j, j < k →
        st.flagsArr (idx + j) &&& WINE_LDT_FLAGS_ALLOCATED = 0 ∧
        (SELECTOR_AllocBlock st base size flags).1.flagsArr (idx + j) &&&
          WINE_LDT_FLAGS_ALLOCATED = WINE_LDT_FLAGS_ALLOCATED) ∧
      (∀ m, m < idx ∨ idx + k ≤ m →
        (SELECTOR_AllocBlock st base size flags).1.flagsArr m = st.flagsArr m) ∧
      GetSelectorLimit16 (SELECTOR_AllocBlock st base size flags).1
        ((SELECTOR_AllocBlock st base size flags).2 + 8 * (k - 1)) =
        (size - 1) % 65536 := by
  refine ⟨rfl, ?_⟩
  have hck : (size + 65535) / 65536 = k ∧ 1 ≤ size ∧ size ≤ 1048576 ∧
      size - 1 - 65536 * (k - 1) = (size - 1) % 65536 := by
    simp only [List.mem_cons, List.not_mem_nil, or_false, Prod.mk.injEq] at hmem
    rcases hmem with ⟨h1, h2⟩ | ⟨h1, h2⟩ | ⟨h1, h2⟩ | ⟨h1, h2⟩ | ⟨h1, h2⟩ <;>
      subst h1 <;> subst h2 <;> norm_num
  obtain ⟨idx, hs, h512, hcap, hfree, hslot, hout⟩ :=
    SELECTOR_AllocBlock_spec st base size flags hck.2.1 hck.2.2.1 hb2
      (by intro h; omega) hsel
  rw [hck.1] at hcap hfree hslot hout
  refine ⟨idx, hs, hcap, fun j hj => ⟨hfree j hj, (hslot j hj).2.2.1⟩,
    fun m hm => (hout m hm).2.2, ?_⟩
  rw [hs, GetSelectorLimit16_at _ idx (k - 1) (by omega)]
  rw [(hslot (k - 1) (by omega)).1]
  exact hck.2.2.2

/-- C2 witness: the amended statement evaluated at size 0x20000 (2 slots,
last-window limit 0xFFFF) on the empty table. -/
theorem C2_witness :
    (0 : Nat) < 4194304 ∧
    ((131072, 2) : Nat × Nat) ∈
      [((1 : Nat), (1 : Nat)), (65535, 1), (65536, 1), (65537, 2), (131072, 2)] ∧
    (SELECTOR_AllocBlock emptyLDT 4194304 131072 WINE_LDT_FLAGS_DATA).2 ≠ 0 ∧
    (SELECTOR_AllocBlock emptyLDT 4194304 0 WINE_LDT_FLAGS_DATA = (emptyLDT, 0) ∧
     ∃ idx, (SELECTOR_AllocBlock emptyLDT 4194304 131072 WINE_LDT_FLAGS_DATA).2 =
        8 * idx + 7 ∧
      idx + 2 ≤ 8192 ∧
      (∀ j, j < 2 →
        emptyLDT.flagsArr (idx + j) &&& WINE_LDT_FLAGS_ALLOCATED = 0 ∧
        (SELECTOR_AllocBlock emptyLDT 4194304 131072 WINE_LDT_FLAGS_DATA).1.flagsArr
          (idx + j) &&& WINE_LDT_FLAGS_ALLOCATED = WINE_LDT_FLAGS_ALLOCATED) ∧
      (∀ m, m < idx ∨ idx + 2 ≤ m →
        (SELECTOR_AllocBlock emptyLDT 4194304 131072 WINE_LDT_FLAGS_DATA).1.flagsArr m =
          emptyLDT.flagsArr m) ∧
      GetSelectorLimit16 (SELECTOR_AllocBlock emptyLDT 4194304 131072
        WINE_LDT_FLAGS_DATA).1
        ((SELECTOR_AllocBlock emptyLDT 4194304 131072 WINE_LDT_FLAGS_DATA).2 + 8 * (2 - 1)) =
        (131072 - 1) % 65536) :=
  ⟨by decide, by decide, by decide,
    C2_sizes emptyLDT 4194304 WINE_LDT_FLAGS_DATA 131072 2 (by decide) (by decide)
      (by decide) (by decide)⟩

/-- C8, corrected part: on a 2-slot block of size 0x20000, both slots carry
the ALLOCATED bit, yet get_sel_count on the second slot is 1 while the block
has 2 slots: (limit >> 16) + 1 recovers the total count only from the first
slot. -/
theorem C8_counterexample :
    (SELECTOR_AllocBlock emptyLDT 4194304 131072 WINE_LDT_FLAGS_DATA).2 = 4103 ∧
    (SELECTOR_AllocBlock emptyLDT 4194304 131072 WINE_LDT_FLAGS_DATA).1.flagsArr 512 &&&
      WINE_LDT_FLAGS_ALLOCATED = WINE_LDT_FLAGS_ALLOCATED ∧
    (SELECTOR_AllocBlock emptyLDT 4194304 131072 WINE_LDT_FLAGS_DATA).1.flagsArr 513 &&&
      WINE_LDT_FLAGS_ALLOCATED = WINE_LDT_FLAGS_ALLOCATED ∧
    get_sel_count (SELECTOR_AllocBlock emptyLDT 4194304 131072 WINE_LDT_FLAGS_DATA).1
      4103 = 2 ∧
    get_sel_count (SELECTOR_AllocBlock emptyLDT 4194304 131072 WINE_LDT_FLAGS_DATA).1
      (4103 + 8) = 1 ∧
    (1 : Nat) ≠ 2 := by
  decide

/-- C8, amended: for a block of count = ceil(size / 0x10000) slots allocated
by SELECTOR_AllocBlock, get_sel_count on slot j recovers count - j, the
number of slots from that slot to the end of the block; the total count is
recovered exactly from the first slot (j = 0). -/
theorem C8_count_from_limit (st : WineLdtCopy) (base size flags : Nat)
    (h1 : 1 ≤ size) (h2 : size ≤ 1048576) (hbase : base < 4294967296)
    (hnz : ¬ (base = 0 ∧ size = 1))
    (hsel : (SELECTOR_AllocBlock st base size flags).2 ≠ 0) :
    ∃ idx, (SELECTOR_AllocBlock st base size flags).2 = 8 * idx + 7 ∧
      ∀ j, j < (size + 65535) / 65536 →
        get_sel_count (SELECTOR_AllocBlock st base size flags).1
          ((SELECTOR_AllocBlock st base size flags).2 + 8 * j) =
          (size + 65535) / 65536 - j := by
  obtain ⟨idx, hs, h512, hcap, hfree, hslot, _⟩ :=
    SELECTOR_AllocBlock_spec st base size flags h1 h2 hbase hnz hsel
  refine ⟨idx, hs, ?_⟩
  intro j hj
  rw [hs, get_sel_count_at _ idx j (by omega), (hslot j hj).1]
  have hc16 : (size + 65535) / 65536 ≤ 16 := by omega
  have hdiv : (size - 1 - 65536 * j) / 65536 = (size + 65535) / 65536 - 1 - j := by
    omega
  rw [hdiv]
  rw [Nat.mod_eq_of_lt (by omega)]
  omega

/-- C8 witness: the amended statement evaluated on the 2-slot block of size
0x20000 on the empty table. -/
theorem C8_witness :
    1 ≤ 131072 ∧ (SELECTOR_AllocBlock emptyLDT 4194304 131072 WINE_LDT_FLAGS_DATA).2 ≠ 0 ∧
    (∃ idx, (SELECTOR_AllocBlock emptyLDT 4194304 131072 WINE_LDT_FLAGS_DATA).2 =
        8 * idx + 7 ∧
      ∀ j, j < (131072 + 65535) / 65536 →
        get_sel_count (SELECTOR_AllocBlock emptyLDT 4194304 131072 WINE_LDT_FLAGS_DATA).1
          ((SELECTOR_AllocBlock emptyLDT 4194304 131072 WINE_LDT_FLAGS_DATA).2 + 8 * j) =
          (131072 + 65535) / 65536 - j) :=
  ⟨by decide, by decide,
    C8_count_from_limit emptyLDT 4194304 131072 WINE_LDT_FLAGS_DATA (by decide) (by decide)
      (by decide) (by decide) (by decide)⟩


lemma testBit_false_of_and_eq_zero (t p i : Nat) (h : t &&& p = 0)
    (hp : p.testBit i = true) : t.testBit i = false := by
  have h2 := congrArg (fun x => Nat.testBit x i) h
  simp only [Nat.testBit_and, hp, Bool.and_true, Nat.zero_testBit] at h2
  exact h2

lemma xor_and_bit_ne (t c m i : Nat) (ht : t.testBit i = false)
    (hc : c.testBit i = true) (hm : m.testBit i = true) : (t ^^^ c) &&& m ≠ 0 := by
  intro h
  have h2 := congrArg (fun x => Nat.testBit x i) h
  simp [Nat.testBit_and, Nat.testBit_xor, ht, hc, hm] at h2

/-- C3: pointer validation (IsBadHugeReadPtr16 / IsBadHugeWritePtr16 /
IsBadCodePtr16) rejects the null selector always; rejects a length whose last
byte offset + length - 1 exceeds the descriptor limit by exactly one while
accepting a length that reaches the limit exactly; rejects Write intent
against a descriptor without the writable bit (read-only data); and rejects
Execute intent against a data-kind (non-code) descriptor. -/
theorem C3_validate_pointer (st : WineLdtCopy) :
    (∀ ptr size, SELECTOROF ptr = 0 →
      IsBadHugeReadPtr16 st ptr size = true ∧
      IsBadHugeWritePtr16 st ptr size = true ∧
      IsBadCodePtr16 st ptr = true) ∧
    (∀ ptr size, 1 ≤ size →
      SELECTOROF ptr ≠ 0 →
      IS_SELECTOR_FREE st (SELECTOROF ptr) = false →
      (wine_ldt_get_entry (SELECTOROF ptr) st).typ &&& 0x10 ≠ 0 →
      ¬ (wine_ldt_get_entry (SELECTOROF ptr) st).typ &&& 0x0a = 0x08 →
      OFFSETOF ptr + size - 1 < 4294967296 →
      ((OFFSETOF ptr + size - 1 =
          wine_ldt_get_limit (wine_ldt_get_entry (SELECTOROF ptr) st) + 1 →
        IsBadHugeReadPtr16 st ptr size = true) ∧
       (OFFSETOF ptr + size - 1 =
          wine_ldt_get_limit (wine_ldt_get_entry (SELECTOROF ptr) st) →
        IsBadHugeReadPtr16 st ptr size = false))) ∧
    (∀ ptr size, 1 ≤ size →
      SELECTOROF ptr ≠ 0 →
      IS_SELECTOR_FREE st (SELECTOROF ptr) = false →
      ((wine_ldt_get_entry (SELECTOROF ptr) st).typ ^^^ WINE_LDT_FLAGS_DATA) &&&
        0xFFFFFFFA = 0 →
      OFFSETOF ptr + size - 1 < 4294967296 →
      ((OFFSETOF ptr + size - 1 =
          wine_ldt_get_limit (wine_ldt_get_entry (SELECTOROF ptr) st) + 1 →
        IsBadHugeWritePtr16 st ptr size = true) ∧
       (OFFSETOF ptr + size - 1 =
          wine_ldt_get_limit (wine_ldt_get_entry (SELECTOROF ptr) st) →
        IsBadHugeWritePtr16 st ptr size = false))) ∧
    (∀ ptr size, (wine_ldt_get_entry (SELECTOROF ptr) st).typ &&& 2 = 0 →
      IsBadHugeWritePtr16 st ptr size = true) ∧
    (∀ ptr, (wine_ldt_get_entry (SELECTOROF ptr) st).typ &&& 8 = 0 →
      IsBadCodePtr16 st ptr = true) := by
  refine ⟨?_, ?_, ?_, ?_, ?_⟩
  · intro ptr size h
    exact ⟨by simp [IsBadHugeReadPtr16, h], by simp [IsBadHugeWritePtr16, h],
      by simp [IsBadCodePtr16, h]⟩
  · intro ptr size hsz hsel hfree h10 h0a hnow
    have hfree2 : ¬ (IS_SELECTOR_FREE st (SELECTOROF ptr) = true) := by
      rw [hfree]; simp
    constructor
    · intro hEq
      simp only [IsBadHugeReadPtr16]
      rw [if_neg hsel, if_neg hfree2, if_neg h10, if_neg h0a,
        if_pos (show size ≠ 0 ∧
          wine_ldt_get_limit (wine_ldt_get_entry (SELECTOROF ptr) st) <
            (OFFSETOF ptr + size + 4294967295) % 4294967296 from
          ⟨by omega, by rw [show (OFFSETOF ptr + size + 4294967295) % 4294967296 =
            OFFSETOF ptr + size - 1 by omega]; omega⟩)]
    · intro hEq
      simp only [IsBadHugeReadPtr16]
      rw [if_neg hsel, if_neg hfree2, if_neg h10, if_neg h0a,
        if_neg (show ¬ (size ≠ 0 ∧
          wine_ldt_get_limit (wine_ldt_get_entry (SELECTOROF ptr) st) <
            (OFFSETOF ptr + size + 4294967295) % 4294967296) from by
          rw [show (OFFSETOF ptr + size + 4294967295) % 4294967296 =
            OFFSETOF ptr + size - 1 by omega]
          omega)]
  · intro ptr size hsz hsel hfree htyp hnow
    have hfree2 : ¬ (IS_SELECTOR_FREE st (SELECTOROF ptr) = true) := by
      rw [hfree]; simp
    have htyp2 : ¬ ((wine_ldt_get_entry (SELECTOROF ptr) st).typ ^^^
        WINE_LDT_FLAGS_DATA) &&& 0xFFFFFFFA ≠ 0 := by
      rw [htyp]; simp
    constructor
    · intro hEq
      simp only [IsBadHugeWritePtr16]
      rw [if_neg hsel, if_neg hfree2, if_neg htyp2,
        if_pos (show size ≠ 0 ∧
          wine_ldt_get_limit (wine_ldt_get_entry (SELECTOROF ptr) st) <
            (OFFSETOF ptr + size + 4294967295) % 4294967296 from
          ⟨by omega, by rw [show (OFFSETOF ptr + size + 4294967295) % 4294967296 =
            OFFSETOF ptr + size - 1 by omega]; omega⟩)]
    · intro hEq
      simp only [IsBadHugeWritePtr16]
      rw [if_neg hsel, if_neg hfree2, if_neg htyp2,
        if_neg (show ¬ (size ≠ 0 ∧
          wine_ldt_get_limit (wine_ldt_get_entry (SELECTOROF ptr) st) <
            (OFFSETOF ptr + size + 4294967295) % 4294967296) from by
          rw [show (OFFSETOF ptr + size + 4294967295) % 4294967296 =
            OFFSETOF ptr + size - 1 by omega]
          omega)]
  · intro ptr size htyp
    by_cases hsel : SELECTOROF ptr = 0
    · simp [IsBadHugeWritePtr16, hsel]
    · by_cases hfree : IS_SELECTOR_FREE st (SELECTOROF ptr) = true
      · simp only [IsBadHugeWritePtr16]
        rw [if_neg hsel, if_pos hfree]
      · have hbad : ((wine_ldt_get_entry (SELECTOROF ptr) st).typ ^^^
            WINE_LDT_FLAGS_DATA) &&& 0xFFFFFFFA ≠ 0 :=
          xor_and_bit_ne _ _ _ 1
            (testBit_false_of_and_eq_zero _ 2 1 htyp (by decide))
            (by decide) (by decide)
        simp only [IsBadHugeWritePtr16]
        rw [if_neg hsel, if_neg hfree, if_pos hbad]
  · intro ptr htyp
    by_cases hsel : SELECTOROF ptr = 0
    · simp [IsBadCodePtr16, hsel]
    · by_cases hfree : IS_SELECTOR_FREE st (SELECTOROF ptr) = true
      · simp only [IsBadCodePtr16]
        rw [if_neg hsel, if_pos hfree]
      · have hbad : ((wine_ldt_get_entry (SELECTOROF ptr) st).typ ^^^
            WINE_LDT_FLAGS_CODE) &&& 0x18 ≠ 0 :=
          xor_and_bit_ne _ _ _ 3
            (testBit_false_of_and_eq_zero _ 8 3 htyp (by decide))
            (by decide) (by decide)
        simp only [IsBadCodePtr16]
        rw [if_neg hsel, if_neg hfree, if_pos hbad]


/-- C3 witness: the validation properties evaluated on the concrete table
testLDT - selector 0x1007 is slot 512 (read-write data, limit 0xFF) and
selector 0x100F is slot 513 (read-only data). -/
theorem C3_witness :
    IsBadHugeReadPtr16 testLDT 0x10070000 257 = true ∧
    IsBadHugeReadPtr16 testLDT 0x10070000 256 = false ∧
    IsBadHugeWritePtr16 testLDT 0x10070000 257 = true ∧
    IsBadHugeWritePtr16 testLDT 0x10070000 256 = false ∧
    IsBadHugeReadPtr16 testLDT 5 1 = true ∧
    IsBadHugeWritePtr16 testLDT 5 1 = true ∧
    IsBadCodePtr16 testLDT 5 = true ∧
    IsBadHugeWritePtr16 testLDT 0x100F0000 1 = true ∧
    IsBadCodePtr16 testLDT 0x10070000 = true :=
  ⟨((C3_validate_pointer testLDT).2.1 0x10070000 257 (by decide) (by decide) (by decide)
      (by decide) (by decide) (by decide)).1 (by decide),
   ((C3_validate_pointer testLDT).2.1 0x10070000 256 (by decide) (by decide) (by decide)
      (by decide) (by decide) (by decide)).2 (by decide),
   ((C3_validate_pointer testLDT).2.2.1 0x10070000 257 (by decide) (by decide) (by decide)
      (by decide) (by decide)).1 (by decide),
   ((C3_validate_pointer testLDT).2.2.1 0x10070000 256 (by decide) (by decide) (by decide)
      (by decide) (by decide)).2 (by decide),
   ((C3_validate_pointer testLDT).1 5 1 (by decide)).1,
   ((C3_validate_pointer testLDT).1 5 1 (by decide)).2.1,
   ((C3_validate_pointer testLDT).1 5 1 (by decide)).2.2,
   (C3_validate_pointer testLDT).2.2.2.1 0x100F0000 1 (by decide),
   (C3_validate_pointer testLDT).2.2.2.2 0x10070000 (by decide)⟩


lemma SELECTOR_AllocBlock_sel (st : WineLdtCopy) (base size flags : Nat) (h : ¬ size = 0) :
    (SELECTOR_AllocBlock st base size flags).2 =
      (SELECTOR_AllocArray st (((size + 65535) % 4294967296) / 65536 % 65536)).2 := by
  simp only [SELECTOR_AllocBlock]
  rw [if_neg h]
  split <;> rfl

lemma SELECTOR_AllocArray_one_success (st : WineLdtCopy)
    (hfree : ∃ m, 512 ≤ m ∧ m < 8192 ∧ st.flagsArr m &&& WINE_LDT_FLAGS_ALLOCATED = 0) :
    (SELECTOR_AllocArray st 1).2 ≠ 0 := by
  obtain ⟨m, h1, h2, h3⟩ := hfree
  obtain ⟨r, hr⟩ := allocScanAux_one st (LDT_SIZE - FIRST_LDT_ENTRY_TO_ALLOC)
    FIRST_LDT_ENTRY_TO_ALLOC 0
    ⟨m, by norm_num [FIRST_LDT_ENTRY_TO_ALLOC]; omega,
      by norm_num [LDT_SIZE, FIRST_LDT_ENTRY_TO_ALLOC]; omega, h3⟩
  rw [SELECTOR_AllocArray, if_neg (show ¬ ((1 : Nat) % 65536 = 0) by decide)]
  have hr2 : allocScan st (1 % 65536) FIRST_LDT_ENTRY_TO_ALLOC 0 = some r := hr
  rw [hr2]
  show (r - 1 % 65536 + 1) <<< 3 ||| 7 ≠ 0
  rw [or7_eq]
  omega

lemma PTR_SEG_OFF_zero (sel : Nat) (h : sel < 65536) :
    PTR_SEG_OFF_TO_SEGPTR sel 0 = sel * 65536 := by
  rw [PTR_SEG_OFF_TO_SEGPTR, Nat.mod_eq_of_lt h,
    show (0 : Nat) % 65536 = 0 from rfl, Nat.or_zero, Nat.shiftLeft_eq]

lemma SELECTOROF_mul (sel : Nat) (h : sel < 65536) : SELECTOROF (sel * 65536) = sel := by
  rw [SELECTOROF, shr16_eq, Nat.mul_div_cancel sel (by norm_num), Nat.mod_eq_of_lt h]

lemma OFFSETOF_mul (sel : Nat) : OFFSETOF (sel * 65536) = 0 := by
  rw [OFFSETOF]
  omega

lemma MapLS_spec (st : WineLdtCopy) (ptr : Nat) (hp : ptr < 4294967296)
    (hhi : (ptr >>> 16) % 65536 ≠ 0)
    (hsel : (SELECTOR_AllocBlock st ptr 65536 WINE_LDT_FLAGS_DATA).2 ≠ 0) :
    ∃ idx, 512 ≤ idx ∧ idx < 8192 ∧
      st.flagsArr idx &&& WINE_LDT_FLAGS_ALLOCATED = 0 ∧
      SELECTOROF (MapLS st ptr).2 = 8 * idx + 7 ∧
      OFFSETOF (MapLS st ptr).2 = 0 ∧
      (MapLS st ptr).1.baseArr idx = ptr ∧
      (MapLS st ptr).1.limitArr idx = 65535 ∧
      (MapLS st ptr).1.flagsArr idx = 147 ∧
      (∀ k, k ≠ idx →
        (MapLS st ptr).1.baseArr k = st.baseArr k ∧
        (MapLS st ptr).1.limitArr k = st.limitArr k ∧
        (MapLS st ptr).1.flagsArr k = st.flagsArr k) := by
  obtain ⟨idx, hs, h512, hcap, hfree, hslot, hout⟩ :=
    SELECTOR_AllocBlock_spec st ptr 65536 WINE_LDT_FLAGS_DATA (by omega) (by omega) hp
      (by intro hcon; omega) hsel
  have hc1 : (65536 + 65535) / 65536 = 1 := by norm_num
  rw [hc1] at hcap hfree hslot hout
  have hmap : MapLS st ptr =
      ((SELECTOR_AllocBlock st ptr 65536 WINE_LDT_FLAGS_DATA).1,
       PTR_SEG_OFF_TO_SEGPTR (SELECTOR_AllocBlock st ptr 65536 WINE_LDT_FLAGS_DATA).2 0) := by
    rw [MapLS, if_neg hhi]
  have hsel16 : 8 * idx + 7 < 65536 := by omega
  have hseg : (MapLS st ptr).2 = (8 * idx + 7) * 65536 := by
    rw [hmap]
    show PTR_SEG_OFF_TO_SEGPTR (SELECTOR_AllocBlock st ptr 65536 WINE_LDT_FLAGS_DATA).2 0 = _
    rw [hs, PTR_SEG_OFF_zero _ hsel16]
  have hslot0 := hslot 0 (by omega)
  rw [Nat.add_zero] at hslot0
  have hfree0 : st.flagsArr idx &&& WINE_LDT_FLAGS_ALLOCATED = 0 := by
    have := hfree 0 (by omega)
    rwa [Nat.add_zero] at this
  have hst1 : (MapLS st ptr).1 = (SELECTOR_AllocBlock st ptr 65536 WINE_LDT_FLAGS_DATA).1 := by
    rw [hmap]
  refine ⟨idx, h512, by omega, hfree0, ?_, ?_, ?_, ?_, ?_, ?_⟩
  · rw [hseg, SELECTOROF_mul _ hsel16]
  · rw [hseg, OFFSETOF_mul]
  · rw [hst1, hslot0.2.1]
    simp [Nat.mod_eq_of_lt hp]
  · rw [hst1, hslot0.1]
  · rw [hst1, hslot0.2.2.2]
    decide
  · intro k hk
    have h2 := hout k (by omega)
    rw [hst1]
    exact h2


/-- C5, corrected part: mapping the linear pointer 0x12345 (high word
nonzero) allocates a window whose base is the pointer itself, 0x12345, not
the page-aligned-down address 0x12000, and the segmented offset is 0, not the
in-page position 0x345. -/
theorem C5_counterexample :
    (MapLS emptyLDT 74565).2 = 268894208 ∧
    SELECTOROF (MapLS emptyLDT 74565).2 = 4103 ∧
    OFFSETOF (MapLS emptyLDT 74565).2 = 0 ∧
    (MapLS emptyLDT 74565).1.baseArr 512 = 74565 ∧
    74565 / 4096 * 4096 = 73728 ∧
    (74565 : Nat) ≠ 73728 := by
  decide

/-- C5, amended: MapLS returns a low pointer unchanged with no allocation;
for a pointer with nonzero high word it allocates one fresh single-window
data slot (flags byte 0x93 = allocated, read-write data) whose base is the
pointer itself (not page-aligned) with limit 0xFFFF, returns selector:0 (the
segmented offset is 0), and touches no other slot. -/
theorem C5_mapLS (st : WineLdtCopy) (ptr : Nat) (hp : ptr < 4294967296) :
    ((ptr >>> 16) % 65536 = 0 → MapLS st ptr = (st, ptr)) ∧
    ((ptr >>> 16) % 65536 ≠ 0 →
      (SELECTOR_AllocBlock st ptr 65536 WINE_LDT_FLAGS_DATA).2 ≠ 0 →
      ∃ idx, 512 ≤ idx ∧ idx < 8192 ∧
        st.flagsArr idx &&& WINE_LDT_FLAGS_ALLOCATED = 0 ∧
        SELECTOROF (MapLS st ptr).2 = 8 * idx + 7 ∧
        OFFSETOF (MapLS st ptr).2 = 0 ∧
        (MapLS st ptr).1.baseArr idx = ptr ∧
        (MapLS st ptr).1.limitArr idx = 65535 ∧
        (MapLS st ptr).1.flagsArr idx = 147 ∧
        (∀ k, k ≠ idx →
          (MapLS st ptr).1.baseArr k = st.baseArr k ∧
          (MapLS st ptr).1.limitArr k = st.limitArr k ∧
          (MapLS st ptr).1.flagsArr k = st.flagsArr k)) := by
  constructor
  · intro h
    rw [MapLS, if_pos h]
  · intro hhi hsel
    exact MapLS_spec st ptr hp hhi hsel

/-- C5 witness: the amended statement evaluated at linear pointer 0x12345 on
the empty table. -/
theorem C5_witness :
    (74565 : Nat) < 4294967296 ∧
    ((74565 : Nat) >>> 16) % 65536 ≠ 0 ∧
    (SELECTOR_AllocBlock emptyLDT 74565 65536 WINE_LDT_FLAGS_DATA).2 ≠ 0 ∧
    (∃ idx, 512 ≤ idx ∧ idx < 8192 ∧
      emptyLDT.flagsArr idx &&& WINE_LDT_FLAGS_ALLOCATED = 0 ∧
      SELECTOROF (MapLS emptyLDT 74565).2 = 8 * idx + 7 ∧
      OFFSETOF (MapLS emptyLDT 74565).2 = 0 ∧
      (MapLS emptyLDT 74565).1.baseArr idx = 74565 ∧
      (MapLS emptyLDT 74565).1.limitArr idx = 65535 ∧
      (MapLS emptyLDT 74565).1.flagsArr idx = 147 ∧
      (∀ k, k ≠ idx →
        (MapLS emptyLDT 74565).1.baseArr k = emptyLDT.baseArr k ∧
        (MapLS emptyLDT 74565).1.limitArr k = emptyLDT.limitArr k ∧
        (MapLS emptyLDT 74565).1.flagsArr k = emptyLDT.flagsArr k)) :=
  ⟨by decide, by decide, by decide,
    (C5_mapLS emptyLDT 74565 (by decide)).2 (by decide) (by decide)⟩

/-- C6: mapping a linear address whose high 16 bits are zero returns the
address unchanged and unmapping the result leaves the table untouched;
mapping an address with nonzero high bits, when a free slot exists, yields a
segmented pointer with a non-null selector whose MapSL translation recomputes
the original address exactly. -/
theorem C6_map_roundtrip (st : WineLdtCopy) (ptr : Nat) (hp : ptr < 4294967296) :
    ((ptr >>> 16) % 65536 = 0 →
      MapLS st ptr = (st, ptr) ∧ UnMapLS st ptr = st) ∧
    ((ptr >>> 16) % 65536 ≠ 0 →
      (∃ m, 512 ≤ m ∧ m < 8192 ∧ st.flagsArr m &&& WINE_LDT_FLAGS_ALLOCATED = 0) →
      SELECTOROF (MapLS st ptr).2 ≠ 0 ∧
      MapSL (MapLS st ptr).1 (MapLS st ptr).2 = ptr) := by
  constructor
  · intro h
    refine ⟨by rw [MapLS, if_pos h], ?_⟩
    rw [UnMapLS, if_neg (not_ne_iff.mpr (show SELECTOROF ptr = 0 from h))]
  · intro hhi hex
    have hsel : (SELECTOR_AllocBlock st ptr 65536 WINE_LDT_FLAGS_DATA).2 ≠ 0 := by
      rw [SELECTOR_AllocBlock_sel st ptr 65536 WINE_LDT_FLAGS_DATA (by omega),
        show ((65536 + 65535) % 4294967296) / 65536 % 65536 = 1 by norm_num]
      exact SELECTOR_AllocArray_one_success st hex
    obtain ⟨idx, h512, h8192, hfree0, hSEL, hOFF, hbase, hlimit, hflags, hout⟩ :=
      MapLS_spec st ptr hp hhi hsel
    refine ⟨by rw [hSEL]; omega, ?_⟩
    rw [MapSL, hSEL, hOFF,
      show (8 * idx + 7) >>> __AHSHIFT = idx from by
        show (8 * idx + 7) >>> 3 = idx
        rw [shr3_eq]
        omega,
      hbase, Nat.add_zero, Nat.mod_eq_of_lt hp]

/-- C6 witness: the roundtrip evaluated at linear pointer 0x12345 on the
empty table, and the passthrough evaluated at 0x1234. -/
theorem C6_witness :
    ((4660 : Nat) >>> 16) % 65536 = 0 ∧
    (MapLS emptyLDT 4660 = (emptyLDT, 4660) ∧ UnMapLS emptyLDT 4660 = emptyLDT) ∧
    ((74565 : Nat) >>> 16) % 65536 ≠ 0 ∧
    (SELECTOROF (MapLS emptyLDT 74565).2 ≠ 0 ∧
     MapSL (MapLS emptyLDT 74565).1 (MapLS emptyLDT 74565).2 = 74565) :=
  ⟨by decide,
   (C6_map_roundtrip emptyLDT 4660 (by decide)).1 (by decide),
   by decide,
   (C6_map_roundtrip emptyLDT 74565 (by decide)).2 (by decide)
     ⟨512, by decide, by decide, by decide⟩⟩


/-- C7: allocate_run (SELECTOR_AllocArray) followed immediately by free_run on
the returned selector with the same count restores every slot's allocation
bit to exactly its value before the pair of calls. -/
theorem C7_alloc_free_roundtrip (st : WineLdtCopy) (count k : Nat)
    (hc : 0 < count) (hsel : (SELECTOR_AllocArray st count).2 ≠ 0) :
    (free_run (SELECTOR_AllocArray st count).1 (SELECTOR_AllocArray st count).2
      count).flagsArr k &&& WINE_LDT_FLAGS_ALLOCATED =
    st.flagsArr k &&& WINE_LDT_FLAGS_ALLOCATED := by
  rcases SELECTOR_AllocArray_spec st count with ⟨hz, _⟩ |
    ⟨idx, hs, h512, hpos, hcap, hfree, _, _, hfArr⟩
  · exact absurd hz hsel
  · rw [free_run, hs]
    have hloop := freeBlockLoop_spec (count % 65536) (8 * idx + 7)
      (SELECTOR_AllocArray st count).1 (by omega) (by rw [sel8_div]; omega)
    rw [sel8_div] at hloop
    by_cases hk : ∃ j, j < count % 65536 ∧ k = idx + j
    · obtain ⟨j, hj, rfl⟩ := hk
      rw [hloop.2 j hj, hfree j hj]
    · push_neg at hk
      have hk2 : ∀ j, j < count % 65536 → k ≠ idx + j := fun j hj => hk j hj
      rw [(hloop.1 k hk2).2.2, hfArr k,
        if_neg (by
          intro hcon
          exact hk (k - idx) (by omega) (by omega))]

/-- C7 witness: the roundtrip evaluated for a 3-slot run on the empty table
at slot 512. -/
theorem C7_witness :
    0 < 3 ∧ (SELECTOR_AllocArray emptyLDT 3).2 ≠ 0 ∧
    (free_run (SELECTOR_AllocArray emptyLDT 3).1 (SELECTOR_AllocArray emptyLDT 3).2
      3).flagsArr 512 &&& WINE_LDT_FLAGS_ALLOCATED =
      emptyLDT.flagsArr 512 &&& WINE_LDT_FLAGS_ALLOCATED :=
  ⟨by decide, by decide, C7_alloc_free_roundtrip emptyLDT 3 512 (by decide) (by decide)⟩


lemma mod32_orT (T b : Nat) (hT : T = 19 ∨ T = 27) (hb : b = 0 ∨ b = 64) :
    ((T ||| b ||| 128) % 256) % 32 = T := by
  rcases hT with h | h <;> rcases hb with h2 | h2 <;> subst h <;> subst h2 <;> decide

lemma CS_alias_eq (st : WineLdtCopy) (sel : Nat) :
    AllocCStoDSAlias16 st sel = allocAlias st sel WINE_LDT_FLAGS_DATA := rfl

lemma DS_alias_eq (st : WineLdtCopy) (sel : Nat) :
    AllocDStoCSAlias16 st sel = allocAlias st sel WINE_LDT_FLAGS_CODE := rfl

lemma allocAlias_spec (st : WineLdtCopy) (sel T : Nat)
    (hT : T = WINE_LDT_FLAGS_DATA ∨ T = WINE_LDT_FLAGS_CODE)
    (hsel16 : sel < 65536)
    (hsrc : st.flagsArr (sel / 8) &&& WINE_LDT_FLAGS_ALLOCATED ≠ 0)
    (hlim : st.limitArr (sel / 8) < 1048576)
    (hbase : st.baseArr (sel / 8) < 4294967296)
    (hnew : (allocAlias st sel T).2 ≠ 0) :
    ∃ idx, (allocAlias st sel T).2 = 8 * idx + 7 ∧
      st.flagsArr idx &&& WINE_LDT_FLAGS_ALLOCATED = 0 ∧
      idx ≠ sel / 8 ∧
      (allocAlias st sel T).1.baseArr idx = st.baseArr (sel / 8) ∧
      (allocAlias st sel T).1.limitArr idx = st.limitArr (sel / 8) ∧
      (allocAlias st sel T).1.flagsArr idx % 32 = T ∧
      (allocAlias st sel T).1.flagsArr (sel / 8) = st.flagsArr (sel / 8) ∧
      (FreeSelector16 (allocAlias st sel T).1
        (allocAlias st sel T).2).1.flagsArr (sel / 8) =
        (allocAlias st sel T).1.flagsArr (sel / 8) := by
  have hp2 : (SELECTOR_AllocArray st 1).2 ≠ 0 := by
    intro hz
    apply hnew
    simp only [allocAlias]
    rw [if_pos hz]
  rcases SELECTOR_AllocArray_spec st 1 with ⟨hz, _⟩ |
    ⟨idx, hs, h512, _, hcap, hfree, hbArr, hlArr, hfArr⟩
  · exact absurd hz hp2
  · have hone : (1 : Nat) % 65536 = 1 := by decide
    rw [hone] at hcap hfree hfArr
    have hfree0 : st.flagsArr idx &&& WINE_LDT_FLAGS_ALLOCATED = 0 := by
      have := hfree 0 (by omega)
      rwa [Nat.add_zero] at this
    have hne : idx ≠ sel / 8 := by
      intro hcon
      rw [hcon] at hfree0
      exact hsrc hfree0
    have hun : allocAlias st sel T =
        (wine_ldt_set_entry (SELECTOR_AllocArray st 1).2
          { wine_ldt_get_entry sel (SELECTOR_AllocArray st 1).1 with typ := T }
          (SELECTOR_AllocArray st 1).1, (SELECTOR_AllocArray st 1).2) := by
      simp only [allocAlias]
      rw [if_neg hp2]
    have hidxsel : (sel % 65536) >>> __AHSHIFT = sel / 8 := sel_index_eq sel hsel16
    have hsrcP1 : (SELECTOR_AllocArray st 1).1.flagsArr (sel / 8) = st.flagsArr (sel / 8) := by
      rw [hfArr, if_neg (by omega)]
    have hE : wine_ldt_get_entry sel (SELECTOR_AllocArray st 1).1 =
        wine_ldt_set_flags
          (wine_ldt_set_limit (wine_ldt_set_base nullEntry (st.baseArr (sel / 8)))
            (st.limitArr (sel / 8)))
          (st.flagsArr (sel / 8)) := by
      rw [wine_ldt_get_entry]
      simp only [hidxsel]
      rw [if_pos (by rw [hsrcP1]; exact hsrc), hsrcP1, hbArr, hlArr]
    set E := wine_ldt_set_flags
      (wine_ldt_set_limit (wine_ldt_set_base nullEntry (st.baseArr (sel / 8)))
        (st.limitArr (sel / 8)))
      (st.flagsArr (sel / 8)) with hEdef
    have hEbase : E.base = st.baseArr (sel / 8) := by
      rw [hEdef, (set_flags_fields _ _).1, (set_limit_fields _ _).1,
        (set_base_fields _ _).1]
      exact Nat.mod_eq_of_lt hbase
    have hEgran : E.granularity = false := by
      rw [hEdef, (set_flags_fields _ _).2.2.1]
      exact (set_limit_small_fields _ _ hlim).1
    have hEraw : E.limitRaw = st.limitArr (sel / 8) := by
      rw [hEdef, (set_flags_fields _ _).2.1]
      exact (set_limit_small_fields _ _ hlim).2
    have hgl : wine_ldt_get_limit { E with typ := T } =
        st.limitArr (sel / 8) := by
      rw [wine_ldt_get_limit]
      show (if E.granularity then (E.limitRaw <<< 12) ||| 0xFFF else E.limitRaw) = _
      rw [hEgran, if_neg (by simp), hEraw]
    have hselidx : ((8 * idx + 7) % 65536) >>> __AHSHIFT = idx := by
      rw [sel_index_eq _ (by omega), sel8_div]
    have hresflags : ∀ k, (allocAlias st sel T).1.flagsArr k =
        if k = idx then
          (T ||| (if E.big then WINE_LDT_FLAGS_32BIT else 0) |||
            ((SELECTOR_AllocArray st 1).1.flagsArr idx &&& WINE_LDT_FLAGS_ALLOCATED)) % 256
        else (SELECTOR_AllocArray st 1).1.flagsArr k := by
      intro k
      rw [hun]
      show (wine_ldt_set_entry (SELECTOR_AllocArray st 1).2 _ _).flagsArr k = _
      rw [hE, hs, set_entry_flags_at, hselidx]
    have hmark : (SELECTOR_AllocArray st 1).1.flagsArr idx &&&
        WINE_LDT_FLAGS_ALLOCATED = WINE_LDT_FLAGS_ALLOCATED := by
      rw [hfArr, if_pos (by omega)]
      exact and128_or128 _
    refine ⟨idx, by rw [hun]; exact hs, hfree0, hne, ?_, ?_, ?_, ?_, ?_⟩
    · rw [hun]
      show (wine_ldt_set_entry (SELECTOR_AllocArray st 1).2 _ _).baseArr idx = _
      rw [hE, hs, set_entry_base_at, hselidx, if_pos rfl]
      show E.base = _
      exact hEbase
    · rw [hun]
      show (wine_ldt_set_entry (SELECTOR_AllocArray st 1).2 _ _).limitArr idx = _
      rw [hE, hs, set_entry_limit_at, hselidx, if_pos rfl]
      exact hgl
    · rw [hresflags idx, if_pos rfl, hmark]
      show ((T ||| (if E.big then 64 else 0) ||| 128) % 256) % 32 = T
      exact mod32_orT T _ hT (by cases E.big <;> simp)
    · rw [hresflags (sel / 8), if_neg (fun hcon => hne hcon.symm), hsrcP1]
    · have hFS := FreeSelector16_state (allocAlias st sel T).1
        (allocAlias st sel T).2
      have hsel2 : (allocAlias st sel T).2 = 8 * idx + 7 := by
        rw [hun]; exact hs
      rw [hsel2] at hFS ⊢
      rw [hselidx] at hFS
      exact (hFS.1 (sel / 8) (fun hcon => hne hcon.symm)).2.2

/-- C9, corrected part: on testLDT, aliasing the allocated read-only data
slot 513 (flags 0x91, selector 0x100F) forces the alias type to a constant in
both directions. AllocCStoDSAlias16 yields alias slot 514 with flags 0x93:
the type field is forced to the data constant 0x13, so the alias kind (data)
equals the source kind (data) instead of differing, and the writable bit is
turned on instead of the source's access bits being preserved.
AllocDStoCSAlias16 on the same source yields flags 0x9B: the kind does flip
to code, but the readable bit is forced on rather than the source's access
bits being preserved. -/
theorem C9_counterexample :
    (AllocCStoDSAlias16 testLDT 4111).2 = 4119 ∧
    (AllocCStoDSAlias16 testLDT 4111).1.flagsArr 514 = 147 ∧
    (AllocDStoCSAlias16 testLDT 4111).2 = 4119 ∧
    (AllocDStoCSAlias16 testLDT 4111).1.flagsArr 514 = 155 ∧
    (AllocCStoDSAlias16 testLDT 4111).1.flagsArr 513 = 145 ∧
    (147 : Nat) &&& 8 = 0 ∧ (145 : Nat) &&& 8 = 0 ∧
    (147 : Nat) &&& 2 = 2 ∧ (155 : Nat) &&& 2 = 2 ∧ (145 : Nat) &&& 2 = 0 := by
  decide

/-- C9, amended: creating an alias of an allocated source slot, in either
direction, allocates one fresh slot (distinct from the source) whose base and
limit equal the source's; the alias's 5-bit type field is set to the fixed
data constant 0x13 by AllocCStoDSAlias16 and to the fixed code constant 0x1B
by AllocDStoCSAlias16, regardless of the source's type, so the kind differs
from the source exactly when the source was of the opposite kind and the
other access bits are forced rather than preserved; the source slot itself is
left untouched, and freeing the alias does not change the source slot at
all. -/
theorem C9_alias (st : WineLdtCopy) (sel : Nat) (hsel16 : sel < 65536)
    (hsrc : st.flagsArr (sel / 8) &&& WINE_LDT_FLAGS_ALLOCATED ≠ 0)
    (hlim : st.limitArr (sel / 8) < 1048576)
    (hbase : st.baseArr (sel / 8) < 4294967296) :
    ((AllocCStoDSAlias16 st sel).2 ≠ 0 →
      ∃ idx, (AllocCStoDSAlias16 st sel).2 = 8 * idx + 7 ∧
        st.flagsArr idx &&& WINE_LDT_FLAGS_ALLOCATED = 0 ∧
        idx ≠ sel / 8 ∧
        (AllocCStoDSAlias16 st sel).1.baseArr idx = st.baseArr (sel / 8) ∧
        (AllocCStoDSAlias16 st sel).1.limitArr idx = st.limitArr (sel / 8) ∧
        (AllocCStoDSAlias16 st sel).1.flagsArr idx % 32 = WINE_LDT_FLAGS_DATA ∧
        (AllocCStoDSAlias16 st sel).1.flagsArr (sel / 8) = st.flagsArr (sel / 8) ∧
        (FreeSelector16 (AllocCStoDSAlias16 st sel).1
          (AllocCStoDSAlias16 st sel).2).1.flagsArr (sel / 8) =
          (AllocCStoDSAlias16 st sel).1.flagsArr (sel / 8)) ∧
    ((AllocDStoCSAlias16 st sel).2 ≠ 0 →
      ∃ idx, (AllocDStoCSAlias16 st sel).2 = 8 * idx + 7 ∧
        st.flagsArr idx &&& WINE_LDT_FLAGS_ALLOCATED = 0 ∧
        idx ≠ sel / 8 ∧
        (AllocDStoCSAlias16 st sel).1.baseArr idx = st.baseArr (sel / 8) ∧
        (AllocDStoCSAlias16 st sel).1.limitArr idx = st.limitArr (sel / 8) ∧
        (AllocDStoCSAlias16 st sel).1.flagsArr idx % 32 = WINE_LDT_FLAGS_CODE ∧
        (AllocDStoCSAlias16 st sel).1.flagsArr (sel / 8) = st.flagsArr (sel / 8) ∧
        (FreeSelector16 (AllocDStoCSAlias16 st sel).1
          (AllocDStoCSAlias16 st sel).2).1.flagsArr (sel / 8) =
          (AllocDStoCSAlias16 st sel).1.flagsArr (sel / 8)) := by
  constructor
  · intro hnew
    rw [CS_alias_eq] at hnew ⊢
    exact allocAlias_spec st sel WINE_LDT_FLAGS_DATA (Or.inl rfl)
      hsel16 hsrc hlim hbase hnew
  · intro hnew
    rw [DS_alias_eq] at hnew ⊢
    exact allocAlias_spec st sel WINE_LDT_FLAGS_CODE (Or.inr rfl)
      hsel16 hsrc hlim hbase hnew


/-- C9 witness: the amended alias statement evaluated for source selector
0x100F (slot 513 of testLDT), in both alias directions. -/
theorem C9_witness :
    (4111 : Nat) < 65536 ∧
    testLDT.flagsArr (4111 / 8) &&& WINE_LDT_FLAGS_ALLOCATED ≠ 0 ∧
    testLDT.limitArr (4111 / 8) < 1048576 ∧
    testLDT.baseArr (4111 / 8) < 4294967296 ∧
    (AllocCStoDSAlias16 testLDT 4111).2 ≠ 0 ∧
    (AllocDStoCSAlias16 testLDT 4111).2 ≠ 0 ∧
    (∃ idx, (AllocCStoDSAlias16 testLDT 4111).2 = 8 * idx + 7 ∧
      testLDT.flagsArr idx &&& WINE_LDT_FLAGS_ALLOCATED = 0 ∧
      idx ≠ 4111 / 8 ∧
      (AllocCStoDSAlias16 testLDT 4111).1.baseArr idx = testLDT.baseArr (4111 / 8) ∧
      (AllocCStoDSAlias16 testLDT 4111).1.limitArr idx = testLDT.limitArr (4111 / 8) ∧
      (AllocCStoDSAlias16 testLDT 4111).1.flagsArr idx % 32 = WINE_LDT_FLAGS_DATA ∧
      (AllocCStoDSAlias16 testLDT 4111).1.flagsArr (4111 / 8) =
        testLDT.flagsArr (4111 / 8) ∧
      (FreeSelector16 (AllocCStoDSAlias16 testLDT 4111).1
        (AllocCStoDSAlias16 testLDT 4111).2).1.flagsArr (4111 / 8) =
        (AllocCStoDSAlias16 testLDT 4111).1.flagsArr (4111 / 8)) ∧
    (∃ idx, (AllocDStoCSAlias16 testLDT 4111).2 = 8 * idx + 7 ∧
      testLDT.flagsArr idx &&& WINE_LDT_FLAGS_ALLOCATED = 0 ∧
      idx ≠ 4111 / 8 ∧
      (AllocDStoCSAlias16 testLDT 4111).1.baseArr idx = testLDT.baseArr (4111 / 8) ∧
      (AllocDStoCSAlias16 testLDT 4111).1.limitArr idx = testLDT.limitArr (4111 / 8) ∧
      (AllocDStoCSAlias16 testLDT 4111).1.flagsArr idx % 32 = WINE_LDT_FLAGS_CODE ∧
      (AllocDStoCSAlias16 testLDT 4111).1.flagsArr (4111 / 8) =
        testLDT.flagsArr (4111 / 8) ∧
      (FreeSelector16 (AllocDStoCSAlias16 testLDT 4111).1
        (AllocDStoCSAlias16 testLDT 4111).2).1.flagsArr (4111 / 8) =
        (AllocDStoCSAlias16 testLDT 4111).1.flagsArr (4111 / 8)) :=
  ⟨by decide, by decide, by decide, by decide, by decide, by decide,
    (C9_alias testLDT 4111 (by decide) (by decide) (by decide) (by decide)).1 (by decide),
    (C9_alias testLDT 4111 (by decide) (by decide) (by decide) (by decide)).2 (by decide)⟩


lemma memReadBytes_spec (buffer mem : Nat → Nat) (src : Nat) :
    ∀ n j, (j < n → memReadBytes buffer mem src n j = mem ((src + j) % 4294967296)) ∧
      (n ≤ j → memReadBytes buffer mem src n j = buffer j) := by
  intro n
  induction n with
  | zero => intro j; exact ⟨fun h => absurd h (by omega), fun _ => rfl⟩
  | succ n ih =>
    intro j
    constructor
    · intro hj
      show (if j = n then mem ((src + n) % 4294967296) else memReadBytes buffer mem src n j) = _
      by_cases h : j = n
      · rw [if_pos h, h]
      · rw [if_neg h]
        exact (ih j).1 (by omega)
    · intro hj
      show (if j = n then mem ((src + n) % 4294967296) else memReadBytes buffer mem src n j) = _
      rw [if_neg (by omega)]
      exact (ih j).2 (by omega)

lemma memWriteBytes_outside (mem buffer : Nat → Nat) (dst : Nat) :
    ∀ n a, (∀ j, j < n → a ≠ (dst + j) % 4294967296) →
      memWriteBytes mem dst buffer n a = mem a := by
  intro n
  induction n with
  | zero => intro a _; rfl
  | succ n ih =>
    intro a ha
    show (if a = (dst + n) % 4294967296 then buffer n else memWriteBytes mem dst buffer n a) = _
    rw [if_neg (ha n (by omega))]
    exact ih a (fun j hj => ha j (by omega))

/-- C10, corrected part: with the slot limit 0xFF and offset 1, a count of
0xFFFFFFFF makes the 32-bit sum offset + count wrap to 0, the clamp check
fails, and MemoryRead16 reports 0xFFFFFFFF bytes transferred instead of
min(count, limit + 1 - offset) = 0xFF, reading far past the slot limit. -/
theorem C10_counterexample :
    (MemoryRead16 testLDT (fun _ => 0) (fun _ => 0) 4103 1 4294967295).1 = 4294967295 ∧
    min 4294967295 (255 + 1 - 1) = 255 ∧
    (4294967295 : Nat) ≠ 255 := by
  decide

/-- C10, amended: provided the 32-bit arithmetic does not wrap (offset + count
below 2^32 and limit below 0xFFFFFFFF), MemoryRead16 and MemoryWrite16 return
0 for an unallocated slot or an offset beyond the limit (buffer and memory
unchanged), and otherwise transfer and return exactly
min(count, limit + 1 - offset) bytes: the read fills exactly that prefix of
the buffer from the slot's memory, and the write changes no linear address
outside the transferred window, in particular no byte past the slot limit. -/
theorem C10_memory_bounds (st : WineLdtCopy) (mem buffer : Nat → Nat)
    (sel offset count : Nat)
    (hoff : offset < 4294967296) (hcnt : offset + count < 4294967296)
    (hlim : st.limitArr ((sel % 65536) >>> __AHSHIFT) < 4294967295) :
    (st.flagsArr ((sel % 65536) >>> __AHSHIFT) &&& WINE_LDT_FLAGS_ALLOCATED = 0 →
      MemoryRead16 st mem buffer sel offset count = (0, buffer) ∧
      MemoryWrite16 st mem buffer sel offset count = (0, mem)) ∧
    (st.limitArr ((sel % 65536) >>> __AHSHIFT) < offset →
      MemoryRead16 st mem buffer sel offset count = (0, buffer) ∧
      MemoryWrite16 st mem buffer sel offset count = (0, mem)) ∧
    (st.flagsArr ((sel % 65536) >>> __AHSHIFT) &&& WINE_LDT_FLAGS_ALLOCATED ≠ 0 →
     offset ≤ st.limitArr ((sel % 65536) >>> __AHSHIFT) →
      (MemoryRead16 st mem buffer sel offset count).1 =
        min count (st.limitArr ((sel % 65536) >>> __AHSHIFT) + 1 - offset) ∧
      (MemoryWrite16 st mem buffer sel offset count).1 =
        min count (st.limitArr ((sel % 65536) >>> __AHSHIFT) + 1 - offset) ∧
      (∀ j, min count (st.limitArr ((sel % 65536) >>> __AHSHIFT) + 1 - offset) ≤ j →
        (MemoryRead16 st mem buffer sel offset count).2 j = buffer j) ∧
      (∀ j, j < min count (st.limitArr ((sel % 65536) >>> __AHSHIFT) + 1 - offset) →
        (MemoryRead16 st mem buffer sel offset count).2 j =
          mem ((st.baseArr ((sel % 65536) >>> __AHSHIFT) + offset + j) % 4294967296)) ∧
      (∀ a, (∀ j, j < min count (st.limitArr ((sel % 65536) >>> __AHSHIFT) + 1 - offset) →
          a ≠ (st.baseArr ((sel % 65536) >>> __AHSHIFT) + offset + j) % 4294967296) →
        (MemoryWrite16 st mem buffer sel offset count).2 a = mem a)) := by
  set index := (sel % 65536) >>> __AHSHIFT with hidef
  refine ⟨?_, ?_, ?_⟩
  · intro h
    constructor
    · rw [MemoryRead16]
      simp only [← hidef]
      rw [if_pos h]
    · rw [MemoryWrite16]
      simp only [← hidef]
      rw [if_pos h]
  · intro h
    have hne : ¬ st.flagsArr index &&& WINE_LDT_FLAGS_ALLOCATED = 0 ∨
        st.flagsArr index &&& WINE_LDT_FLAGS_ALLOCATED = 0 := by tauto
    constructor
    · rw [MemoryRead16]
      simp only [← hidef]
      by_cases hz : st.flagsArr index &&& WINE_LDT_FLAGS_ALLOCATED = 0
      · rw [if_pos hz]
      · rw [if_neg hz, if_pos h]
    · rw [MemoryWrite16]
      simp only [← hidef]
      by_cases hz : st.flagsArr index &&& WINE_LDT_FLAGS_ALLOCATED = 0
      · rw [if_pos hz]
      · rw [if_neg hz, if_pos h]
  · intro halloc hofflim
    have hclamp : (if (st.limitArr index + 1) % 4294967296 < (offset + count) % 4294967296
        then ((st.limitArr index + 1) % 4294967296 + 4294967296 - offset % 4294967296) %
          4294967296
        else count) = min count (st.limitArr index + 1 - offset) := by
      by_cases hcond : (st.limitArr index + 1) % 4294967296 < (offset + count) % 4294967296
      · rw [if_pos hcond]
        omega
      · rw [if_neg hcond]
        omega
    have hread : MemoryRead16 st mem buffer sel offset count =
        (min count (st.limitArr index + 1 - offset),
         memReadBytes buffer mem ((st.baseArr index + offset) % 4294967296)
           (min count (st.limitArr index + 1 - offset))) := by
      rw [MemoryRead16]
      simp only [← hidef]
      rw [if_neg halloc, if_neg (by omega), hclamp]
    have hwrite : MemoryWrite16 st mem buffer sel offset count =
        (min count (st.limitArr index + 1 - offset),
         memWriteBytes mem ((st.baseArr index + offset) % 4294967296) buffer
           (min count (st.limitArr index + 1 - offset))) := by
      rw [MemoryWrite16]
      simp only [← hidef]
      rw [if_neg halloc, if_neg (by omega), hclamp]
    refine ⟨by rw [hread], by rw [hwrite], ?_, ?_, ?_⟩
    · intro j hj
      rw [hread]
      exact (memReadBytes_spec buffer mem _ _ j).2 hj
    · intro j hj
      rw [hread]
      show memReadBytes buffer mem ((st.baseArr index + offset) % 4294967296)
        (min count (st.limitArr index + 1 - offset)) j = _
      have h2 := (memReadBytes_spec buffer mem
        ((st.baseArr index + offset) % 4294967296) _ j).1 hj
      rw [h2]
      congr 1
      omega
    · intro a ha
      rw [hwrite]
      show memWriteBytes mem ((st.baseArr index + offset) % 4294967296) buffer
        (min count (st.limitArr index + 1 - offset)) a = mem a
      refine memWriteBytes_outside mem buffer _ _ a ?_
      intro j hj
      have h3 := ha j hj
      intro hcon
      apply h3
      rw [hcon]
      congr 1
      omega


/-- C10 witness: the amended transfer-count property evaluated on testLDT
slot 512 (limit 0xFF), offset 1, count 300: exactly 255 bytes transfer. -/
theorem C10_witness :
    (1 : Nat) < 4294967296 ∧ 1 + 300 < 4294967296 ∧
    testLDT.limitArr ((4103 % 65536) >>> __AHSHIFT) < 4294967295 ∧
    testLDT.flagsArr ((4103 % 65536) >>> __AHSHIFT) &&& WINE_LDT_FLAGS_ALLOCATED ≠ 0 ∧
    1 ≤ testLDT.limitArr ((4103 % 65536) >>> __AHSHIFT) ∧
    (MemoryRead16 testLDT (fun _ => 7) (fun _ => 0) 4103 1 300).1 =
      min 300 (testLDT.limitArr ((4103 % 65536) >>> __AHSHIFT) + 1 - 1) :=
  ⟨by decide, by decide, by decide, by decide, by decide,
    ((C10_memory_bounds testLDT (fun _ => 7) (fun _ => 0) 4103 1 300 (by decide)
      (by decide) (by decide)).2.2 (by decide) (by decide)).1⟩


lemma SELECTOR_ReallocBlock_eq (st : WineLdtCopy) (sel base size : Nat)
    (hsel : sel < 65536) (hsz : 1 ≤ size) (hsz2 : size ≤ 1048576) :
    SELECTOR_ReallocBlock st sel base size =
      (let p : WineLdtCopy × Nat :=
        if get_sel_count st sel < (size + 65535) / 65536 then
          if (if LDT_SIZE < sel / 8 + (size + 65535) / 65536 then get_sel_count st sel
              else reallocScan st (sel / 8) ((size + 65535) / 65536)
                (get_sel_count st sel)) < (size + 65535) / 65536 then
            SELECTOR_AllocArray (SELECTOR_FreeBlock st sel) ((size + 65535) / 65536)
          else
            ({ st with flagsArr := fun k =>
                if sel / 8 + get_sel_count st sel ≤ k ∧
                    k < sel / 8 + (size + 65535) / 65536 then
                  (st.flagsArr k ||| WINE_LDT_FLAGS_ALLOCATED) % 256
                else st.flagsArr k }, sel)
        else if (size + 65535) / 65536 < get_sel_count st sel then
          (SELECTOR_FreeBlock st (sel + (((size + 65535) / 65536) <<< __AHSHIFT)), sel)
        else (st, sel)
      if p.2 ≠ 0 then
        (SELECTOR_SetEntries p.1 p.2 base size
          (wine_ldt_get_flags (wine_ldt_get_entry sel st)), p.2)
      else p) := by
  simp only [SELECTOR_ReallocBlock]
  rw [Nat.mod_eq_of_lt hsel, if_neg (show ¬ size = 0 by omega),
    show (((size + 65535) % 4294967296) >>> 16) % 65536 = (size + 65535) / 65536 from by
      rw [shr16_eq]; omega,
    show sel >>> __AHSHIFT = sel / 8 from by
      show sel >>> 3 = sel / 8
      exact shr3_eq sel]


/-- C4: growing an allocated block in place - when the slots immediately
following the block are free and the grown block stays within table capacity,
SELECTOR_ReallocBlock marks exactly those following slots allocated and
returns the same selector value; and SELECTOR_ReallocBlock returns the null
selector only when the reallocation-elsewhere also fails, in which case the
old block's slots have already been freed. -/
theorem C4_realloc_grow (st : WineLdtCopy) (sel base size : Nat)
    (hsel : sel < 65536) (hsel7 : sel % 8 = 7) (hselnz : sel ≠ 0)
    (hsz : 1 ≤ size) (hsz2 : size ≤ 1048576) :
    (get_sel_count st sel < (size + 65535) / 65536 →
     sel / 8 + (size + 65535) / 65536 ≤ 8192 →
     (∀ i, get_sel_count st sel ≤ i → i < (size + 65535) / 65536 →
       st.flagsArr (sel / 8 + i) &&& WINE_LDT_FLAGS_ALLOCATED = 0) →
     (∀ i, i < get_sel_count st sel →
       st.flagsArr (sel / 8 + i) &&& WINE_LDT_FLAGS_ALLOCATED ≠ 0) →
     (SELECTOR_ReallocBlock st sel base size).2 = sel ∧
     (∀ i, i < (size + 65535) / 65536 →
       (SELECTOR_ReallocBlock st sel base size).1.flagsArr (sel / 8 + i) &&&
         WINE_LDT_FLAGS_ALLOCATED = WINE_LDT_FLAGS_ALLOCATED)) ∧
    ((SELECTOR_ReallocBlock st sel base size).2 = 0 →
     sel / 8 + get_sel_count st sel ≤ 8192 →
     ∀ i, i < get_sel_count st sel →
       (SELECTOR_ReallocBlock st sel base size).1.flagsArr (sel / 8 + i) &&&
         WINE_LDT_FLAGS_ALLOCATED = 0) := by
  have hun := SELECTOR_ReallocBlock_eq st sel base size hsel hsz hsz2
  have hc : ((size + 65535) % 4294967296 / 65536) % 65536 = (size + 65535) / 65536 := by
    omega
  have hSE : ∀ st2 : WineLdtCopy, SELECTOR_SetEntries st2 sel base size
      (wine_ldt_get_flags (wine_ldt_get_entry sel st)) =
      setEntriesLoop sel
        (if base = 0 ∧ size = 1 then
          wine_ldt_set_limit
            (wine_ldt_set_flags
              (wine_ldt_set_limit (wine_ldt_set_base nullEntry base)
                ((size + 4294967295) % 4294967296))
              (wine_ldt_get_flags (wine_ldt_get_entry sel st))) 1
        else
          wine_ldt_set_flags
            (wine_ldt_set_limit (wine_ldt_set_base nullEntry base)
              ((size + 4294967295) % 4294967296))
            (wine_ldt_get_flags (wine_ldt_get_entry sel st)))
        st2 ((size + 65535) / 65536) := by
    intro st2
    simp only [SELECTOR_SetEntries]
    rw [hc]
  set E := (if base = 0 ∧ size = 1 then
      wine_ldt_set_limit
        (wine_ldt_set_flags
          (wine_ldt_set_limit (wine_ldt_set_base nullEntry base)
            ((size + 4294967295) % 4294967296))
          (wine_ldt_get_flags (wine_ldt_get_entry sel st))) 1
    else
      wine_ldt_set_flags
        (wine_ldt_set_limit (wine_ldt_set_base nullEntry base)
          ((size + 4294967295) % 4294967296))
        (wine_ldt_get_flags (wine_ldt_get_entry sel st))) with hEdef
  have hEbase : E.base < 4294967296 := by
    rw [hEdef]
    split
    · rw [(set_limit_fields _ _).1, (set_flags_fields _ _).1, (set_limit_fields _ _).1,
        (set_base_fields _ _).1]
      omega
    · rw [(set_flags_fields _ _).1, (set_limit_fields _ _).1, (set_base_fields _ _).1]
      omega
  have hEtyp : E.typ < 128 := by
    rw [hEdef]
    split
    · rw [(set_limit_fields _ _).2.1, (set_flags_fields _ _).2.2.2.1]
      omega
    · rw [(set_flags_fields _ _).2.2.2.1]
      omega
  constructor
  · intro hlt hcap2 hadj hold
    have hscan : reallocScan st (sel / 8) ((size + 65535) / 65536)
        (get_sel_count st sel) = (size + 65535) / 65536 := by
      rw [reallocScan, reallocScanAux_all_free st (sel / 8)
        ((size + 65535) / 65536 - get_sel_count st sel) (get_sel_count st sel)
        (fun j h1 h2 => hadj j h1 (by omega))]
      omega
    have hres : SELECTOR_ReallocBlock st sel base size =
        (SELECTOR_SetEntries
          ({ st with flagsArr := fun k =>
              if sel / 8 + get_sel_count st sel ≤ k ∧
                  k < sel / 8 + (size + 65535) / 65536 then
                (st.flagsArr k ||| WINE_LDT_FLAGS_ALLOCATED) % 256
              else st.flagsArr k }) sel base size
          (wine_ldt_get_flags (wine_ldt_get_entry sel st)), sel) := by
      rw [hun]
      show (let p : WineLdtCopy × Nat := _
        if p.2 ≠ 0 then _ else p) = _
      rw [if_pos hlt,
        if_neg (show ¬ LDT_SIZE < sel / 8 + (size + 65535) / 65536 from by
          simp only [LDT_SIZE]; omega),
        hscan,
        if_neg (show ¬ (size + 65535) / 65536 < (size + 65535) / 65536 from by omega),
        if_pos hselnz]
    refine ⟨by rw [hres], ?_⟩
    intro i hi
    rw [hres]
    show (SELECTOR_SetEntries _ sel base size _).flagsArr (sel / 8 + i) &&&
      WINE_LDT_FLAGS_ALLOCATED = WINE_LDT_FLAGS_ALLOCATED
    rw [hSE]
    have hspec := setEntriesLoop_spec ((size + 65535) / 65536) sel E
      ({ st with flagsArr := fun k =>
          if sel / 8 + get_sel_count st sel ≤ k ∧
              k < sel / 8 + (size + 65535) / 65536 then
            (st.flagsArr k ||| WINE_LDT_FLAGS_ALLOCATED) % 256
          else st.flagsArr k }) hsel7 (by omega) hEbase
    rw [(hspec.2 i hi).2]
    have hkeep := and128_keep E.typ (if E.big then WINE_LDT_FLAGS_32BIT else 0)
      ((if sel / 8 + get_sel_count st sel ≤ sel / 8 + i ∧
          sel / 8 + i < sel / 8 + (size + 65535) / 65536 then
        (st.flagsArr (sel / 8 + i) ||| WINE_LDT_FLAGS_ALLOCATED) % 256
      else st.flagsArr (sel / 8 + i))) hEtyp
      (by cases E.big <;> simp [WINE_LDT_FLAGS_32BIT])
    show (E.typ ||| (if E.big then WINE_LDT_FLAGS_32BIT else 0) |||
      ((if sel / 8 + get_sel_count st sel ≤ sel / 8 + i ∧
          sel / 8 + i < sel / 8 + (size + 65535) / 65536 then
        (st.flagsArr (sel / 8 + i) ||| WINE_LDT_FLAGS_ALLOCATED) % 256
      else st.flagsArr (sel / 8 + i)) &&& 128)) % 256 &&& 128 = 128
    rw [hkeep]
    by_cases hio : get_sel_count st sel ≤ i
    · rw [if_pos (show sel / 8 + get_sel_count st sel ≤ sel / 8 + i ∧
          sel / 8 + i < sel / 8 + (size + 65535) / 65536 from ⟨by omega, by omega⟩)]
      exact and128_or128 _
    · rw [if_neg (show ¬ (sel / 8 + get_sel_count st sel ≤ sel / 8 + i ∧
          sel / 8 + i < sel / 8 + (size + 65535) / 65536) from by omega)]
      have h2 := hold i (by omega)
      rcases and128_cases (st.flagsArr (sel / 8 + i)) with h3 | h3
      · exact absurd h3 h2
      · exact h3
  · intro h0 hcapold i hi
    by_cases hlt : get_sel_count st sel < (size + 65535) / 65536
    · by_cases hscan2 : (if LDT_SIZE < sel / 8 + (size + 65535) / 65536 then
          get_sel_count st sel
        else reallocScan st (sel / 8) ((size + 65535) / 65536)
          (get_sel_count st sel)) < (size + 65535) / 65536
      · rcases SELECTOR_AllocArray_spec (SELECTOR_FreeBlock st sel)
          ((size + 65535) / 65536) with ⟨hz, hst⟩ | ⟨idx, hs, _, _, _, _, _, _, _⟩
        · have hres : SELECTOR_ReallocBlock st sel base size =
              (SELECTOR_FreeBlock st sel, 0) := by
            rw [hun]
            show (let p : WineLdtCopy × Nat := _
              if p.2 ≠ 0 then _ else p) = _
            rw [if_pos hlt, if_pos hscan2,
              if_neg (show ¬ (SELECTOR_AllocArray (SELECTOR_FreeBlock st sel)
                ((size + 65535) / 65536)).2 ≠ 0 from not_ne_iff.mpr hz)]
            rw [Prod.ext_iff]
            exact ⟨hst, hz⟩
          rw [hres]
          show (SELECTOR_FreeBlock st sel).flagsArr (sel / 8 + i) &&&
            WINE_LDT_FLAGS_ALLOCATED = 0
          rw [SELECTOR_FreeBlock]
          have hloop := freeBlockLoop_spec (get_sel_count st sel) sel st hsel7
            (by omega)
          exact hloop.2 i hi
        · exfalso
          have hres2 : (SELECTOR_ReallocBlock st sel base size).2 =
              (SELECTOR_AllocArray (SELECTOR_FreeBlock st sel)
                ((size + 65535) / 65536)).2 := by
            rw [hun]
            show (let p : WineLdtCopy × Nat := _
              if p.2 ≠ 0 then _ else p).2 = _
            rw [if_pos hlt, if_pos hscan2,
              if_pos (show (SELECTOR_AllocArray (SELECTOR_FreeBlock st sel)
                ((size + 65535) / 65536)).2 ≠ 0 from by rw [hs]; omega)]
          rw [hres2, hs] at h0
          omega
      · exfalso
        have hres2 : (SELECTOR_ReallocBlock st sel base size).2 = sel := by
          rw [hun]
          show (let p : WineLdtCopy × Nat := _
            if p.2 ≠ 0 then _ else p).2 = _
          rw [if_pos hlt, if_neg hscan2, if_pos hselnz]
        rw [hres2] at h0
        exact hselnz h0
    · by_cases hgt : (size + 65535) / 65536 < get_sel_count st sel
      · exfalso
        have hres2 : (SELECTOR_ReallocBlock st sel base size).2 = sel := by
          rw [hun]
          show (let p : WineLdtCopy × Nat := _
            if p.2 ≠ 0 then _ else p).2 = _
          rw [if_neg hlt, if_pos hgt, if_pos hselnz]
        rw [hres2] at h0
        exact hselnz h0
      · exfalso
        have hres2 : (SELECTOR_ReallocBlock st sel base size).2 = sel := by
          rw [hun]
          show (let p : WineLdtCopy × Nat := _
            if p.2 ≠ 0 then _ else p).2 = _
          rw [if_neg hlt, if_neg hgt, if_pos hselnz]
        rw [hres2] at h0
        exact hselnz h0


/-- C4 witness: grow a 2-slot block (size 0x20000 at slots 512-513) in place
to 3 slots (size 0x30000): the selector 0x1007 is preserved and slots 512 and
514 of the result carry the ALLOCATED bit. -/
theorem C4_witness :
    get_sel_count (SELECTOR_AllocBlock emptyLDT 4194304 131072
      WINE_LDT_FLAGS_DATA).1 4103 = 2 ∧
    (SELECTOR_ReallocBlock (SELECTOR_AllocBlock emptyLDT 4194304 131072
      WINE_LDT_FLAGS_DATA).1 4103 4194304 196608).2 = 4103 ∧
    (SELECTOR_ReallocBlock (SELECTOR_AllocBlock emptyLDT 4194304 131072
      WINE_LDT_FLAGS_DATA).1 4103 4194304 196608).1.flagsArr (4103 / 8 + 0) &&&
      WINE_LDT_FLAGS_ALLOCATED = WINE_LDT_FLAGS_ALLOCATED ∧
    (SELECTOR_ReallocBlock (SELECTOR_AllocBlock emptyLDT 4194304 131072
      WINE_LDT_FLAGS_DATA).1 4103 4194304 196608).1.flagsArr (4103 / 8 + 2) &&&
      WINE_LDT_FLAGS_ALLOCATED = WINE_LDT_FLAGS_ALLOCATED := by
  have hgsc : get_sel_count (SELECTOR_AllocBlock emptyLDT 4194304 131072
      WINE_LDT_FLAGS_DATA).1 4103 = 2 := by decide
  have h := (C4_realloc_grow (SELECTOR_AllocBlock emptyLDT 4194304 131072
      WINE_LDT_FLAGS_DATA).1 4103 4194304 196608 (by decide) (by decide) (by decide)
      (by decide) (by decide)).1 (by rw [hgsc]; decide) (by decide)
    (by intro i h1 h2; rw [hgsc] at h1; interval_cases i <;> decide)
    (by intro i h1; rw [hgsc] at h1; interval_cases i <;> decide)
  exact ⟨by decide, h.1, h.2 0 (by decide), h.2 2 (by decide)⟩

end Selector
